import Mathlib

/-!
# Verification of `flight_sim_3d` (PEGAS-kRPC)

A shallow embedding of `src/kRPC/flight_sim_3d.py` over the rationals.
Machine floats are modelled as `ℚ`; every collaborator module that is not
part of the source tree (`unit`, `rodrigues`, `approx_from_curve`,
`get_thrust`, `calculate_air_density`, `get_angle_from_frame`,
`get_orbital_elements`, `get_max_value`, the `unified_powered_flight_guidance`
module and the `init_simulation` constants) is modelled from the spec as an
abstract parameter bundled in the `Ops` / `Globals` records, so every theorem
below holds for all behaviours of those collaborators.  `np.linalg.norm`,
`np.sqrt`, `np.arctan2`, `np.cos`, `np.sin` and `np.pi` are likewise carried
as parameters of the embedding (floats cannot be `ℚ`-exact there); concrete
executable instantiations are provided for witnesses, chosen so that they are
exact on every input the witnesses evaluate them at.
-/

namespace PEGAS

/-- 3-vector over ℚ, modelling the numpy arrays of size 3 used throughout. -/
structure Vec3 where
  x : ℚ
  y : ℚ
  z : ℚ
deriving DecidableEq, Repr

namespace Vec3

def add (a b : Vec3) : Vec3 := ⟨a.x + b.x, a.y + b.y, a.z + b.z⟩

def sub (a b : Vec3) : Vec3 := ⟨a.x - b.x, a.y - b.y, a.z - b.z⟩

def smul (c : ℚ) (a : Vec3) : Vec3 := ⟨c * a.x, c * a.y, c * a.z⟩

def neg (a : Vec3) : Vec3 := ⟨-a.x, -a.y, -a.z⟩

/-- `np.vdot` on 3-vectors. -/
def dot (a b : Vec3) : ℚ := a.x * b.x + a.y * b.y + a.z * b.z

/-- `np.cross` on 3-vectors. -/
def cross (a b : Vec3) : Vec3 :=
  ⟨a.y * b.z - a.z * b.y, a.z * b.x - a.x * b.z, a.x * b.y - a.y * b.x⟩

def zero : Vec3 := ⟨0, 0, 0⟩

end Vec3

instance : Add Vec3 := ⟨Vec3.add⟩
instance : Sub Vec3 := ⟨Vec3.sub⟩
instance : Neg Vec3 := ⟨Vec3.neg⟩
instance : SMul ℚ Vec3 := ⟨Vec3.smul⟩
instance : Zero Vec3 := ⟨Vec3.zero⟩

/-!
## GrowingList semantics (source lines 127-139)

The source stores every per-step history in a `GrowingList`: writing at an
index beyond the current length first extends the list with the default
value, reading beyond the length returns the default.  `gset` is
`GrowingList.__setitem__`, `List.getD` is exactly
`GrowingList.__getitem__` for non-negative indices, and Python-2 slicing
`xs[0:i]` on such a list is `List.take i` (it dispatches to
`list.__getslice__`, which `GrowingList` does not override).
-/

/-- `GrowingList.__setitem__`: extend with the default up to index `i`,
then write `v` at `i`. -/
def gset (l : List α) (d : α) (i : ℕ) (v : α) : List α :=
  if l.length ≤ i then (l ++ List.replicate (i + 1 - l.length) d).set i v
  else l.set i v

/-!
## Data model

Structures mirror the Python classes of `flight_sim_3d.py`; types belonging
to collaborator modules that are absent from the source tree (`upfg`,
`results_to_init`, `launch_targeting`) are reconstructed from the spec's §3
data model and from the fields the source reads/writes on them.
-/

/-- A 2-column interpolation table (altitude/speed/time in the first column),
as consumed by `approx_from_curve`. -/
def Curve : Type := List (ℚ × ℚ)

/-- An engine as far as the core reads it: `engines[0].data[0]` and
`engines[0].data[1]` are the throttle clamps used in constant-acceleration
mode; everything else is only passed through to `get_thrust`. -/
structure Engine where
  data : List ℚ
deriving Repr

/-- One vehicle stage (spec §3 Vehicle): burn mode tag, initial mass,
g-limit, engine set, cross-sectional area, drag curve, max phase burn time. -/
structure Stage where
  mode : ℤ
  m0 : ℚ
  gLim : ℚ
  engines : List Engine
  area : ℚ
  drag : Curve
  maxT : ℚ

/-- Modelled from the spec: the UPFG target record (spec §3 Target) of the
missing `launch_targeting` module — radius and inertial speed at insertion
plus the orbital-plane unit normal. -/
structure Target where
  radius : ℚ
  velocity : ℚ
  normal : Vec3

/-- Modelled from the spec: conic-state-extrapolation state of the missing
`upfg` module.  The source only ever builds it as `upfg.CSERState(0,0,0,0,0)`
and passes it through, so the five fields are anonymous scalars here. -/
structure CSERState where
  c1 : ℚ
  c2 : ℚ
  c3 : ℚ
  c4 : ℚ
  c5 : ℚ
deriving DecidableEq, Repr

/-- Modelled from the spec: the UPFG persistence record (spec §3), in the
positional order of the `upfg.UPEGState(...)` constructor call at source
lines 311-313: CSE state, a zero 3-vector, desired burnout position `rd`,
gravity integral `rgrav`, burn-time-elapsed `tb`, last evaluation time
`time`, time-to-go `tgo`, current velocity snapshot `v`, velocity-to-go
`vgo`. -/
structure UPEGState where
  cser : CSERState
  rbias : Vec3
  rd : Vec3
  rgrav : Vec3
  tb : ℚ
  time : ℚ
  tgo : ℚ
  v : Vec3
  vgo : Vec3
deriving DecidableEq, Repr

/-- Modelled from the spec: the guidance output record of the missing
`upfg` module; the core reads exactly `pitch`, `yaw` and `tgo` (spec §6). -/
structure Guidance where
  pitch : ℚ
  yaw : ℚ
  tgo : ℚ
deriving DecidableEq, Repr

/-- Modelled from the spec: the per-call UPFG debug output.  Of its many
fields the core's control flow reads only `diverge` (a 0/1 flag); `time` and
`tgo` stand in for the remaining copied-through plot fields. -/
structure DebugOut where
  time : ℚ
  tgo : ℚ
  diverge : ℚ

/-- The debug aggregate built by `debug_initializator`/`debug_aggregator`
(source lines 590-699).  `thisIdx` is the Python field `this` (the write
cursor).  Of the aggregator's ~50 parallel history arrays only the ones the
simulation ever reads back (`diverge`) plus two representatives (`time`,
`tgo`) are modelled; the others are write-only plot data with no influence
on any state the claims mention. -/
structure Dbg where
  thisIdx : ℕ
  time : List ℚ
  tgo : List ℚ
  diverge : List ℚ

/-- Modelled from the spec: the physical-state struct `upfg.State(t, m, r, v)`
snapshotting time, mass, position and velocity for a UPFG call. -/
structure UPFGPhys where
  time : ℚ
  mass : ℚ
  radius : Vec3
  velocity : Vec3

/-- A local reference frame: the 3-element Python lists returned by
`get_navball_frame` (up, north, east) and `get_circum_frame`
(radial, normal, circumferential). -/
structure Frame where
  f0 : Vec3
  f1 : Vec3
  f2 : Vec3
deriving DecidableEq, Repr

/-- The string argument of `get_angle_from_frame` ('pitch' or 'yaw'). -/
inductive AngleKind where
  | pitchAngle
  | yawAngle

/-- Initial conditions: `LaunchSite` (geodetic longitude, latitude, altitude)
or `InitStruct` (time, inertial position/velocity, optional inbound UPFG
persistence record), per spec §3.  The source's third case (`Wrong initial
conditions`) is unrepresentable in this typed sum. -/
inductive Initial where
  | launchSite (longitude latitude altitude : ℚ)
  | inFlight (t : ℚ) (r v : Vec3) (upfg : Option UPEGState)

/-- The control variant (source classes `GravityTurnControl` (type 0),
`PitchControl` (type 1), `UPFGControl` (type 3), `CoastControl` (type 5)).
The deprecated PEG mode (type 2) aborts immediately in the source and is not
represented. -/
inductive Control where
  | gravityTurn (pitch velocity azimuth : ℚ)
  | pitchProgram (program : Curve) (azimuth : ℚ)
  | upfg (target : Target) (major : ℚ)
  | coast (length : ℚ)

/-- The integer `control.type` tag of the source. -/
def Control.ctype : Control → ℤ
  | .gravityTurn _ _ _ => 0
  | .pitchProgram _ _ => 1
  | .upfg _ _ => 3
  | .coast _ => 5

def Control.isCoast : Control → Bool
  | .coast _ => true
  | _ => false

/-- Modelled from the spec: the global constants of the missing
`init_simulation` module (spec §6 Units): gravitational parameter, surface
gravity, planet radius, rotation period, UPFG convergence threshold and the
two atmosphere tables. -/
structure Globals where
  mu : ℚ
  g0 : ℚ
  R : ℚ
  period : ℚ
  convergence_criterion : ℚ
  atmpressure : Curve
  atmtemperature : Curve

/-- Modelled from the spec: the collaborator contract bundle (spec §6).
Every function here is a module imported by `flight_sim_3d.py` that is not
part of the source tree, or a numpy float routine with no exact ℚ
counterpart (`nrm` is `np.linalg.norm`, `sqrtQ`/`atan2`/`cosQ`/`sinQ`/`piQ`
are `np.sqrt`/`np.arctan2`/`np.cos`/`np.sin`/`np.pi`).  The embedding is
parametric in all of them, so the theorems below hold for every collaborator
behaviour; witnesses instantiate them with executable functions that are
exact at every point they are evaluated at. -/
structure Ops where
  nrm : Vec3 → ℚ
  sqrtQ : ℚ → ℚ
  atan2 : ℚ → ℚ → ℚ
  cosQ : ℚ → ℚ
  sinQ : ℚ → ℚ
  piQ : ℚ
  unit : Vec3 → Vec3
  rodrigues : Vec3 → Vec3 → ℚ → Vec3
  approx_from_curve : ℚ → Curve → ℚ
  get_thrust : List Engine → ℚ → ℚ → ℚ × ℚ
  calculate_air_density : ℚ → ℚ → ℚ
  get_angle_from_frame : Vec3 → Frame → AngleKind → ℚ
  get_orbital_elements : Vec3 → Vec3 → ℚ × ℚ × ℚ × ℚ × ℚ × ℚ × ℚ × ℚ
  get_max_value : List ℚ → ℕ × ℚ
  upfg_call : List Stage → Target → UPFGPhys → UPEGState → UPEGState × Guidance × DebugOut

/-- The full argument list of `flight_sim_3d(vehicle, stage, initial,
control, jettison, dt, apply_guidance_func, get_state_func)` together with
the collaborator bundle.  `probe` models `get_state_func` as a pure stream
indexed by the step counter (it is called exactly once per step);
`apply_guidance_func` only emits commands outward and never affects
simulation state, so it has no model. -/
structure Config where
  o : Ops
  g : Globals
  vehicle : List Stage
  stage : ℕ
  initial : Initial
  control : Control
  jettison : List (ℚ × ℚ)
  dt0 : ℚ
  probe : Option (ℕ → Vec3 × Vec3 × ℚ × ℚ)

def defaultEngine : Engine := ⟨[]⟩

def defaultStage : Stage := ⟨0, 0, 0, [], 0, [], 0⟩

def defaultCSER : CSERState := ⟨0, 0, 0, 0, 0⟩

def defaultUPEG : UPEGState :=
  ⟨defaultCSER, Vec3.zero, Vec3.zero, Vec3.zero, 0, 0, 0, Vec3.zero, Vec3.zero⟩

/-- `vehicle[stage]` (the source indexes without bounds handling; out of
range is modelled by a default stage). -/
def stg (cfg : Config) : Stage := cfg.vehicle.getD cfg.stage defaultStage

/-- Simulation length (source lines 193-196): coast duration for coast
phases, max phase burn time otherwise. -/
def maxTof (cfg : Config) : ℚ :=
  match cfg.control with
  | .coast len => len
  | _ => (stg cfg).maxT

/-- The mutable state of the simulation main loop: every `GrowingList`
history, the loss accumulators, the scalar registers (`m`, `eng`, `dt`,
`GT`, `lc`), both local frames, the live guidance output, the UPFG
persistence record, the debug aggregate and the (mutated in place) jettison
table. -/
structure SimState where
  t : List ℚ
  F : List ℚ
  acc : List ℚ
  q : List ℚ
  pitch : List ℚ
  yaw : List ℚ
  g_loss : ℚ
  d_loss : ℚ
  r : List Vec3
  rmag : List ℚ
  v : List Vec3
  vmag : List ℚ
  vy : List ℚ
  vt : List ℚ
  vair : List Vec3
  vairmag : List ℚ
  angPS : List ℚ
  angYS : List ℚ
  angPO : List ℚ
  angYO : List ℚ
  nav : Frame
  rnc : Frame
  m : ℚ
  eng : ℤ
  dt : ℚ
  GT : ℕ
  lc : ℚ
  guidance : Guidance
  upfg_internal : Option UPEGState
  dbg : Option Dbg
  jet : List (ℚ × ℚ)

/-!
## Helper functions of the source file
-/

/-- `sph2cart` (source lines 34-38). -/
def sph2cart (o : Ops) (azimuth elevation radius : ℚ) : Vec3 :=
  ⟨radius * o.cosQ elevation * o.cosQ azimuth,
   radius * o.cosQ elevation * o.sinQ azimuth,
   radius * o.sinQ elevation⟩

/-- `np.deg2rad`. -/
def deg2rad (o : Ops) (x : ℚ) : ℚ := x * o.piQ / 180

/-- `get_navball_frame` (source lines 530-540): up, unit north, unit east. -/
def get_navball_frame (o : Ops) (r : Vec3) : Frame :=
  let up := o.unit r
  let east := Vec3.cross ⟨0, 0, 1⟩ up
  let north := Vec3.cross up east
  ⟨up, o.unit north, o.unit east⟩

/-- `get_circum_frame` (source lines 544-555): radial, normal,
circumferential. -/
def get_circum_frame (o : Ops) (r v : Vec3) : Frame :=
  let radial := o.unit r
  let normal := o.unit (Vec3.cross r v)
  ⟨radial, normal, Vec3.cross normal radial⟩

/-- `make_vector` (source lines 571-574): rotate up towards east by pitch,
then about up by yaw. -/
def make_vector (o : Ops) (f : Frame) (p y : ℚ) : Vec3 :=
  o.rodrigues (o.rodrigues f.f0 f.f1 p) f.f0 y

/-- `surf_speed` (source lines 578-584): Earth-rotation velocity at `r`,
along the east basis vector; the latitude comes from `cart2sph`
(source lines 25-30). -/
def surf_speed (o : Ops) (g : Globals) (r : Vec3) (nav : Frame) : Vec3 :=
  let lat := o.atan2 r.z (o.sqrtQ (r.x ^ 2 + r.y ^ 2))
  let vel := 2 * o.piQ * g.R / g.period * o.cosQ lat
  vel • nav.f2

/-!
## Jettison scheduler (source lines 463-478)
-/

/-- One jettison entry examined at one step: skipped if scheduled before the
phase start `t0`, fired (time overwritten with the `-1` sentinel) if its time
has come, untouched otherwise.  The `Bool` reports whether it fired. -/
def jetEntryStep (t0 ti : ℚ) (e : ℚ × ℚ) : (ℚ × ℚ) × Bool :=
  if e.1 < t0 then (e, false)
  else if e.1 ≤ ti then ((-1, e.2), true)
  else (e, false)

/-- The per-step sweep over the whole jettison table, returning the updated
mass and table. -/
def jetPass (t0 ti m : ℚ) : List (ℚ × ℚ) → ℚ × List (ℚ × ℚ)
  | [] => (m, [])
  | e :: es =>
      let s := jetEntryStep t0 ti e
      let m1 := if s.2 then m - e.2 else m
      let rest := jetPass t0 ti m1 es
      (rest.1, s.1 :: rest.2)

/-!
## UPFG debug aggregation (source lines 590-699) and convergence loop
(source lines 702-717)
-/

/-- `GrowingList.__getitem__` with a Python int index: beyond the length the
default (0) is returned; a negative index counts from the end
(`list.__getitem__` semantics; a still-negative effective index would raise
in Python and is modelled by the default). -/
def pyGetQ (l : List ℚ) (idx : ℤ) : ℚ :=
  if idx ≥ (l.length : ℤ) then 0
  else if 0 ≤ idx then l.getD idx.toNat 0
  else if 0 ≤ (l.length : ℤ) + idx then l.getD ((l.length : ℤ) + idx).toNat 0
  else 0

/-- `GrowingList.__setitem__` with a Python int index (a negative index is
in-range from the end; the simulation only ever uses it at `this-1 ≥ 0`). -/
def pySetQ (l : List ℚ) (idx : ℤ) (v : ℚ) : List ℚ :=
  if 0 ≤ idx then gset l 0 idx.toNat v
  else l.set ((l.length : ℤ) + idx).toNat v

/-- `debug_initializator` (source lines 590-604); its size argument is
unused in the source, all histories start empty with `this = 0`. -/
def debugInit : Dbg := ⟨0, [], [], []⟩

/-- `debug_aggregator` (source lines 610-699): append this call's debug
output at the cursor and advance it. -/
def dbgAgg (a : Dbg) (d : DebugOut) : Dbg :=
  ⟨a.thisIdx + 1,
   gset a.time 0 a.thisIdx d.time,
   gset a.tgo 0 a.thisIdx d.tgo,
   gset a.diverge 0 a.thisIdx d.diverge⟩

/-- The divergence bookkeeping after a UPFG call (source lines 379-382): a
0→1 transition only prints a warning; a 1→0 transition is pinned back to 1
(sticky). -/
def stickyDiverge (a : Dbg) : Dbg :=
  if ¬(pyGetQ a.diverge ((a.thisIdx : ℤ) - 1) ≠ 0) ∧
      pyGetQ a.diverge ((a.thisIdx : ℤ) - 2) ≠ 0 then
    { a with diverge := pySetQ a.diverge ((a.thisIdx : ℤ) - 1) 1 }
  else a

/-- The iteration of `converge_upfg` (source lines 706-714): call UPFG,
compare consecutive `tgo` values against the relative convergence
criterion.  Division in ℚ is total (`x/0 = 0`); the source would raise on
`t1 = 0`, which no claim exercises. -/
def convIter (o : Ops) (crit : ℚ) (veh : List Stage) (tgt : Target)
    (st : UPFGPhys) : ℕ → UPEGState × Guidance × DebugOut →
    UPEGState × Guidance × DebugOut
  | 0, acc => acc
  | k + 1, acc =>
      let t1 := acc.1.tgo
      let next := o.upfg_call veh tgt st acc.1
      let t2 := next.1.tgo
      if |(t1 - t2) / t1| < crit then next
      else convIter o crit veh tgt st k next

/-- `converge_upfg` (source lines 702-717): prime with one UPFG call, then
iterate up to `max_iters` times until `tgo` stabilises.  The `time`
argument and the failure flag only drive diagnostics printing and are not
modelled. -/
def converge_upfg (o : Ops) (crit : ℚ) (veh : List Stage) (tgt : Target)
    (st : UPFGPhys) (internal : UPEGState) (max_iters : ℕ) :
    UPEGState × Guidance × DebugOut :=
  convIter o crit veh tgt st max_iters (o.upfg_call veh tgt st internal)

/-- The synthesized UPFG seed (source lines 302-313), built when a
UPFG-controlled phase starts with no inbound persistence record: rotate the
position unit vector 20° prograde about `-target.normal` with Rodrigues,
scale to `target.radius`, derive the velocity-to-go from it, set the gravity
integral to `-(mu/2)·r/‖r‖³`, and fill the remaining constructor slots as in
the `upfg.UPEGState(...)` call. -/
def synthSeed (o : Ops) (g : Globals) (tgt : Target) (t0 : ℚ) (r0 v0 : Vec3)
    (cser : CSERState) : UPEGState :=
  let rdinit0 := o.rodrigues (o.unit r0) (-tgt.normal) 20
  let rdinit := tgt.radius • rdinit0
  let vdinit0 := tgt.velocity • o.unit (Vec3.cross (-tgt.normal) rdinit)
  let vdinit := vdinit0 - v0
  ⟨cser, Vec3.zero, rdinit, (-(g.mu / 2) / o.nrm r0 ^ 3) • r0, 0, t0, 0, v0,
   vdinit⟩

/-!
## Simulation setup (source lines 181-322)
-/

/-- SIMULATION INITIALIZATION and CONTROL SETUP (source lines 198-322):
builds the state the main loop starts from.  For a launch site, `t` is never
written at index 0 and stays empty (reads yield the `GrowingList` default 0);
only the UPFG setup writes `pitch[0]`/`yaw[0]`, and `F`/`q` are never
initialised — exactly as in the source. -/
def initState (cfg : Config) : SimState :=
  let o := cfg.o
  let gl := cfg.g
  let st := stg cfg
  let m := st.m0
  let tl : List ℚ :=
    match cfg.initial with
    | .launchSite _ _ _ => []
    | .inFlight t0 _ _ _ => gset [] 0 0 t0
  let r0 : Vec3 :=
    match cfg.initial with
    | .launchSite lon lat alt =>
        sph2cart o (deg2rad o lon) (deg2rad o lat) (gl.R + alt)
    | .inFlight _ rv _ _ => rv
  let v0 : Vec3 :=
    match cfg.initial with
    | .launchSite _ _ _ => surf_speed o gl r0 (get_navball_frame o r0)
    | .inFlight _ _ vv _ => vv
  let rmag0 := o.nrm r0
  let vmag0 := o.nrm v0
  let nav := get_navball_frame o r0
  let rnc := get_circum_frame o r0 v0
  let vair0 := v0 - surf_speed o gl r0 nav
  let vairmag0 := max (o.nrm vair0) 1
  let vy0 := Vec3.dot v0 nav.f0
  let vt0 := Vec3.dot v0 rnc.f2
  let aps0 := o.get_angle_from_frame vair0 nav .pitchAngle
  let ays0 := o.get_angle_from_frame vair0 nav .yawAngle
  let apo0 := o.get_angle_from_frame v0 nav .pitchAngle
  let ayo0 := o.get_angle_from_frame v0 nav .yawAngle
  let p := o.approx_from_curve ((rmag0 - gl.R) / 1000) gl.atmpressure
  let acc0 := (o.get_thrust st.engines p (tl.getD 0 0)).1 / m
  let σ : SimState :=
    { t := tl, F := [], acc := gset [] 0 0 acc0, q := [], pitch := [],
      yaw := [], g_loss := 0, d_loss := 0, r := gset [] Vec3.zero 0 r0,
      rmag := gset [] 0 0 rmag0, v := gset [] Vec3.zero 0 v0,
      vmag := gset [] 0 0 vmag0, vy := gset [] 0 0 vy0,
      vt := gset [] 0 0 vt0, vair := gset [] Vec3.zero 0 vair0,
      vairmag := gset [] 0 0 vairmag0, angPS := gset [] 0 0 aps0,
      angYS := gset [] 0 0 ays0, angPO := gset [] 0 0 apo0,
      angYO := gset [] 0 0 ayo0, nav := nav, rnc := rnc, m := m, eng := 1,
      dt := cfg.dt0, GT := 0, lc := 0, guidance := ⟨0, 0, 0⟩,
      upfg_internal := none, dbg := none, jet := cfg.jettison }
  match cfg.control with
  | .gravityTurn _ _ _ => σ
  | .pitchProgram _ _ => σ
  | .upfg tgt _ =>
      let ustate : UPFGPhys := ⟨tl.getD 0 0, m, r0, v0⟩
      let conv :=
        match cfg.initial with
        | .inFlight _ _ _ (some u) =>
            converge_upfg o gl.convergence_criterion
              (cfg.vehicle.drop cfg.stage) tgt ustate { u with tb := 0 } 50
        | _ =>
            converge_upfg o gl.convergence_criterion
              (cfg.vehicle.drop cfg.stage) tgt ustate
              (synthSeed o gl tgt (tl.getD 0 0) r0 v0 defaultCSER) 50
      { σ with upfg_internal := some conv.1, guidance := conv.2.1,
               dbg := some (dbgAgg debugInit conv.2.2),
               pitch := gset [] 0 0 conv.2.1.pitch,
               yaw := gset [] 0 0 conv.2.1.yaw }
  | .coast _ => { σ with acc := gset (gset [] 0 0 acc0) 0 0 0, eng := -1 }

/-!
## Main loop — GUIDANCE section (source lines 326-397)
-/

/-- The gravity-turn state-machine transition (source lines 335-338):
0 = rising, 1 = kicking over, 2 = holding prograde. -/
def gtNext (σ : SimState) (gtiP gtiV : ℚ) (i : ℕ) : ℕ :=
  if σ.vy.getD (i - 1) 0 ≥ gtiV ∧ σ.GT = 0 then 1
  else if σ.angPS.getD (i - 1) 0 > gtiP ∧ σ.GT = 1 then 2
  else σ.GT

/-- The gravity-turn pitch command (source lines 343-351), dispatching on
the already-updated state flag. -/
def gtPitchCmd (σ : SimState) (gtiP : ℚ) (i : ℕ) (gt : ℕ) : ℚ :=
  if gt = 0 then 0
  else if gt = 1 then min (σ.pitch.getD (i - 1) 0 + σ.dt) gtiP
  else σ.angPS.getD (i - 1) 0

/-- The UPFG cadence step (source lines 363-384): either just advance the
last-call timer, or snapshot the physical state, call UPFG, aggregate debug
output (with the sticky divergence bookkeeping) and reset the timer. -/
def upfgCycle (cfg : Config) (tgt : Target) (ct : ℚ) (i : ℕ)
    (σ : SimState) : SimState :=
  if σ.lc < ct - σ.dt then { σ with lc := σ.lc + σ.dt }
  else
    let ustate : UPFGPhys :=
      ⟨σ.t.getD (i - 1) 0, σ.m, σ.r.getD (i - 1) Vec3.zero,
       σ.v.getD (i - 1) Vec3.zero⟩
    let c := cfg.o.upfg_call (cfg.vehicle.drop cfg.stage) tgt ustate
      (σ.upfg_internal.getD defaultUPEG)
    { σ with upfg_internal := some c.1, guidance := c.2.1,
             dbg := σ.dbg.map fun a => stickyDiverge (dbgAgg a c.2.2),
             lc := 0 }

/-- The UPFG guidance branch (source lines 355-397): fuel check, cadence
step, scheduled-cutoff check, velocity safety cutoff, command update.  A
`false` outcome is a `break` out of the main loop. -/
def upfgGuid (cfg : Config) (tgt : Target) (ct : ℚ) (i : ℕ)
    (σ : SimState) : SimState × Bool :=
  if σ.t.getD (i - 1) 0 - σ.t.getD 0 0 > maxTof cfg ∧ σ.eng > 0 then
    ({ σ with eng := 0 }, false)
  else
    let σ₁ := upfgCycle cfg tgt ct i σ
    if σ₁.guidance.tgo - σ₁.lc < σ₁.dt ∧ σ₁.eng = 1 then
      ({ σ₁ with eng := 2 }, false)
    else if cfg.o.nrm (σ₁.v.getD (i - 1) Vec3.zero) ≥ tgt.velocity then
      ({ σ₁ with eng := 3 }, false)
    else
      ({ σ₁ with pitch := gset σ₁.pitch 0 i σ₁.guidance.pitch,
                 yaw := gset σ₁.yaw 0 i σ₁.guidance.yaw }, true)

/-- The GUIDANCE section of one loop iteration (source lines 326-397).
Coast phases match no branch and in particular never write
`pitch[i]`/`yaw[i]`. -/
def guidanceStep (cfg : Config) (i : ℕ) (σ : SimState) : SimState × Bool :=
  match cfg.control with
  | .gravityTurn gtiP gtiV azim =>
      let gt := gtNext σ gtiP gtiV i
      ({ σ with GT := gt,
                pitch := gset σ.pitch 0 i (gtPitchCmd σ gtiP i gt),
                yaw := gset σ.yaw 0 i azim }, true)
  | .pitchProgram prog azim =>
      ({ σ with
          pitch := gset σ.pitch 0 i
            (cfg.o.approx_from_curve (σ.t.getD (i - 1) 0) prog),
          yaw := gset σ.yaw 0 i azim }, true)
  | .upfg tgt ct => upfgGuid cfg tgt ct i σ
  | .coast _ => (σ, true)

/-!
## Main loop — PHYSICS section (source lines 399-487)

Each quantity of the straight-line physics block is a named definition
taking the pre-step state, so that theorems can refer to them individually;
`physBody` assembles the updated state.
-/

/-- Ambient pressure lookup `p` (source line 407). -/
def pAtm (cfg : Config) (i : ℕ) (σ : SimState) : ℚ :=
  cfg.o.approx_from_curve ((σ.rmag.getD (i - 1) 0 - cfg.g.R) / 1000)
    cfg.g.atmpressure

/-- Thrust block (source lines 404-422): `(F[i], dm, desired_throttle)`.
Zero for coast; otherwise `get_thrust`, rescaled by the clamped desired
throttle in constant-acceleration mode (`mode == 2`). -/
def thrustCalc (cfg : Config) (i : ℕ) (σ : SimState) : ℚ × ℚ × ℚ :=
  match cfg.control with
  | .coast _ => (0, 0, 0)
  | _ =>
      let st := stg cfg
      let ft := cfg.o.get_thrust st.engines (pAtm cfg i σ) (σ.t.getD (i - 1) 0)
      if st.mode = 2 then
        let e0 := st.engines.getD 0 defaultEngine
        let thr0 := st.gLim * cfg.g.g0 * σ.m / ft.1
        let thr := max (min thr0 (e0.data.getD 1 0)) (e0.data.getD 0 0)
        (ft.1 * thr, ft.2 * thr, thr)
      else (ft.1, ft.2, 1)

/-- `acc[i] = F[i]/m` (source line 423). -/
def accNew (cfg : Config) (i : ℕ) (σ : SimState) : ℚ :=
  (thrustCalc cfg i σ).1 / σ.m

/-- Thrust acceleration vector `acv` (source line 424). -/
def acvVec (cfg : Config) (i : ℕ) (σ : SimState) : Vec3 :=
  accNew cfg i σ • make_vector cfg.o σ.nav (σ.pitch.getD i 0) (σ.yaw.getD i 0)

/-- Gravity acceleration `G = mu*r[i-1]/rmag[i-1]**3` (source line 426). -/
def Gvec (cfg : Config) (i : ℕ) (σ : SimState) : Vec3 :=
  (cfg.g.mu / σ.rmag.getD (i - 1) 0 ^ 3) • σ.r.getD (i - 1) Vec3.zero

/-- Air density (source lines 430-431). -/
def densNew (cfg : Config) (i : ℕ) (σ : SimState) : ℚ :=
  cfg.o.calculate_air_density (pAtm cfg i σ * 101325)
    (cfg.o.approx_from_curve ((σ.rmag.getD (i - 1) 0 - cfg.g.R) / 1000)
       cfg.g.atmtemperature + 273.15)

/-- Dynamic pressure `q[i]` (source line 432). -/
def qNew (cfg : Config) (i : ℕ) (σ : SimState) : ℚ :=
  1 / 2 * densNew cfg i σ * σ.vairmag.getD (i - 1) 0 ^ 2

/-- Drag-induced acceleration magnitude `D` (source lines 429-433). -/
def Dval (cfg : Config) (i : ℕ) (σ : SimState) : ℚ :=
  (stg cfg).area *
    cfg.o.approx_from_curve (σ.vairmag.getD (i - 1) 0) (stg cfg).drag *
    qNew cfg i σ / σ.m

/-- The `(r[i], v[i], m, t[i])` update (source lines 435-443): either the
external state probe's values, or the forecast semi-implicit Euler step
(`v[i]` first, then `r[i]` from the updated velocity). -/
def rvmtNew (cfg : Config) (i : ℕ) (σ : SimState) : Vec3 × Vec3 × ℚ × ℚ :=
  match cfg.probe with
  | some f => f i
  | none =>
      let vi := σ.v.getD (i - 1) Vec3.zero + σ.dt • acvVec cfg i σ -
        σ.dt • Gvec cfg i σ -
        (Dval cfg i σ * σ.dt) • cfg.o.unit (σ.vair.getD (i - 1) Vec3.zero)
      (σ.r.getD (i - 1) Vec3.zero + σ.dt • vi, vi,
       σ.m - (thrustCalc cfg i σ).2.1 * σ.dt, σ.t.getD (i - 1) 0 + σ.dt)

/-- The whole PHYSICS block below the crash check (source lines 404-487
minus the final break): histories written at index `i`, loss accumulators
advanced, frames rebuilt from the new state, jettison sweep applied, `dt`
recomputed from the written time history. -/
def physBody (cfg : Config) (i : ℕ) (σ : SimState) : SimState :=
  let o := cfg.o
  let rv := rvmtNew cfg i σ
  let ri := rv.1
  let vi := rv.2.1
  let mi := rv.2.2.1
  let ti := rv.2.2.2
  let tl := gset σ.t 0 i ti
  let navNew := get_navball_frame o ri
  let rncNew := get_circum_frame o ri vi
  let vairi := vi - surf_speed o cfg.g ri navNew
  let jm := jetPass (tl.getD 0 0) ti mi σ.jet
  { σ with
      F := gset σ.F 0 i (thrustCalc cfg i σ).1,
      acc := gset σ.acc 0 i (accNew cfg i σ),
      q := gset σ.q 0 i (qNew cfg i σ),
      g_loss := σ.g_loss + o.nrm (Gvec cfg i σ) * σ.dt,
      d_loss := σ.d_loss + Dval cfg i σ * σ.dt,
      v := gset σ.v Vec3.zero i vi,
      r := gset σ.r Vec3.zero i ri,
      t := tl,
      vmag := gset σ.vmag 0 i (o.nrm vi),
      vy := gset σ.vy 0 i (Vec3.dot vi σ.nav.f0),
      vt := gset σ.vt 0 i (Vec3.dot vi σ.rnc.f2),
      rmag := gset σ.rmag 0 i (o.nrm ri),
      nav := navNew,
      rnc := rncNew,
      vair := gset σ.vair Vec3.zero i vairi,
      vairmag := gset σ.vairmag 0 i (o.nrm vairi),
      angPS := gset σ.angPS 0 i (o.get_angle_from_frame vairi navNew .pitchAngle),
      angYS := gset σ.angYS 0 i (o.get_angle_from_frame vairi navNew .yawAngle),
      angPO := gset σ.angPO 0 i (o.get_angle_from_frame vi navNew .pitchAngle),
      angYO := gset σ.angYO 0 i (o.get_angle_from_frame vi navNew .yawAngle),
      m := jm.1,
      jet := jm.2,
      dt := ti - tl.getD (i - 1) 0 }

/-- The PHYSICS section of one iteration: the crash check (source lines
400-403, with `<=` and the 10 m tolerance) breaks with code −100 before any
history is written; otherwise run `physBody` and apply the end-of-step
elapsed-time break (source lines 486-487). -/
def physStep (cfg : Config) (i : ℕ) (σ : SimState) : SimState × Bool :=
  if σ.rmag.getD (i - 1) 0 ≤ cfg.g.R - 10 then ({ σ with eng := -100 }, false)
  else if (physBody cfg i σ).t.getD i 0 - (physBody cfg i σ).t.getD 0 0 >
      maxTof cfg then (physBody cfg i σ, false)
  else (physBody cfg i σ, true)

/-- One iteration of the main loop: GUIDANCE then (unless a guidance check
broke out) PHYSICS.  `false` means the Python `break`. -/
def step (cfg : Config) (i : ℕ) (σ : SimState) : SimState × Bool :=
  match guidanceStep cfg i σ with
  | (σ₁, false) => (σ₁, false)
  | (σ₁, true) => physStep cfg i σ₁

/-- The main loop `for i in xrange(1, 1000000)` with `break` (source line
325): `k` is the remaining iteration budget; the returned ℕ is the value of
`i` at loop exit (the break iteration, or 999999 when the range is
exhausted), exactly the index the OUTPUT section trims with. -/
def run (cfg : Config) : ℕ → ℕ → SimState → ℕ × SimState
  | 0, i, σ => (i - 1, σ)
  | k + 1, i, σ =>
      match step cfg i σ with
      | (σ', true) => run cfg k (i + 1) σ'
      | (σ', false) => (i, σ')

/-- The whole simulation up to the OUTPUT section. -/
def flightRun (cfg : Config) : ℕ × SimState := run cfg 999999 1 (initState cfg)

/-!
## OUTPUT section (source lines 489-526)
-/

/-- The `PlotEntry` record (source lines 51-70) plus the `debug` attribute
attached at lines 496-499. -/
structure PlotEntry where
  t : List ℚ
  r : List Vec3
  rmag : List ℚ
  v : List Vec3
  vy : List ℚ
  vt : List ℚ
  vmag : List ℚ
  F : List ℚ
  a : List ℚ
  q : List ℚ
  pitch : List ℚ
  yaw : List ℚ
  vair : List Vec3
  vairmag : List ℚ
  angle_ps : List ℚ
  angle_ys : List ℚ
  angle_po : List ℚ
  angle_yo : List ℚ
  debug : Option Dbg

/-- The `Orbit` record (source lines 41-48). -/
structure Orbit where
  sma : ℚ
  ecc : ℚ
  inc : ℚ
  lan : ℚ
  aop : ℚ
  tan : ℚ

/-- The `Result` record (source lines 73-91) after all OUTPUT-section
assignments. -/
structure SimResult where
  altitude : ℚ
  apoapsis : ℚ
  periapsis : ℚ
  orbit : Orbit
  velocity : ℚ
  velocity_y : ℚ
  velocity_t : ℚ
  max_Qv : ℚ
  max_Qt : ℚ
  lost_gravity : ℚ
  lost_drag : ℚ
  lost_total : ℚ
  burn_time_left : ℚ
  plots : PlotEntry
  eng : ℤ
  upfg : Option UPEGState

/-- The OUTPUT section (source lines 489-526): trim every history to
`[0:i]`, build the summary, extract orbital elements and max-Q through the
collaborators, and propagate the UPFG persistence record (final internal
state if one exists, else the inbound one, else absent — the source's `{}`
placeholder is `none`). -/
def finalize (cfg : Config) (i : ℕ) (σ : SimState) : SimResult :=
  let plots : PlotEntry :=
    ⟨σ.t.take i, σ.r.take i, σ.rmag.take i, σ.v.take i, σ.vy.take i,
     σ.vt.take i, σ.vmag.take i, σ.F.take i, σ.acc.take i, σ.q.take i,
     σ.pitch.take i, σ.yaw.take i, σ.vair.take i, σ.vairmag.take i,
     σ.angPS.take i, σ.angYS.take i, σ.angPO.take i, σ.angYO.take i, σ.dbg⟩
  let orb := cfg.o.get_orbital_elements (σ.r.getD (i - 1) Vec3.zero)
    (σ.v.getD (i - 1) Vec3.zero)
  let mq := cfg.o.get_max_value σ.q
  { altitude := (σ.rmag.getD (i - 1) 0 - cfg.g.R) / 1000
    apoapsis := orb.1
    periapsis := orb.2.1
    orbit := ⟨orb.2.2.1, orb.2.2.2.1, orb.2.2.2.2.1, orb.2.2.2.2.2.1,
              orb.2.2.2.2.2.2.1, orb.2.2.2.2.2.2.2⟩
    velocity := σ.vmag.getD (i - 1) 0
    velocity_y := Vec3.dot (σ.v.getD (i - 1) Vec3.zero) σ.nav.f0
    velocity_t := Vec3.dot (σ.v.getD (i - 1) Vec3.zero) σ.rnc.f2
    max_Qv := mq.2
    max_Qt := σ.t.getD mq.1 0
    lost_gravity := σ.g_loss
    lost_drag := σ.d_loss
    lost_total := σ.g_loss + σ.d_loss
    burn_time_left := maxTof cfg - σ.t.getD (i - 1) 0 + σ.t.getD 0 0
    plots := plots
    eng := σ.eng
    upfg :=
      match σ.upfg_internal, cfg.initial with
      | some u, _ => some u
      | none, .inFlight _ _ _ (some u) => some u
      | none, _ => none }

/-- `flight_sim_3d` end to end. -/
def flight_sim_3d (cfg : Config) : SimResult :=
  finalize cfg (flightRun cfg).1 (flightRun cfg).2

/-!
## Executable collaborator instantiations

Concrete values for the abstract `Ops`/`Globals` parameters, used by the
closed witness and counterexample theorems.  They are chosen to be exact at
every point a witness evaluates them at (e.g. `qnorm` agrees with the
Euclidean norm whenever the squared magnitude is a perfect square of a
rational, which holds for every vector the witnesses feed it). -/

/-- Fuelled binary search for the integer square root (structural recursion,
so the kernel can evaluate it inside `decide`). -/
def isqrtAux (n : ℕ) : ℕ → ℕ → ℕ → ℕ
  | 0, lo, _ => lo
  | fuel + 1, lo, hi =>
      if hi ≤ lo then lo
      else
        if (lo + hi + 1) / 2 * ((lo + hi + 1) / 2) ≤ n then
          isqrtAux n fuel ((lo + hi + 1) / 2) hi
        else isqrtAux n fuel lo ((lo + hi + 1) / 2 - 1)

/-- Integer square root (floor), exact on perfect squares below `2^140`. -/
def isqrt (n : ℕ) : ℕ := isqrtAux n 140 0 n

/-- A computable square root on ℚ, exact on squares of rationals. -/
def qsqrt (q : ℚ) : ℚ := (isqrt q.num.toNat : ℚ) / (isqrt q.den : ℚ)

/-- A computable stand-in for `np.linalg.norm`, exact whenever the squared
magnitude is a square. -/
def qnorm (v : Vec3) : ℚ := qsqrt (v.x ^ 2 + v.y ^ 2 + v.z ^ 2)

/-- Modelled from the spec: the missing `unit` module, `v/‖v‖`, over the
computable norm. -/
def unitQ (v : Vec3) : Vec3 := (1 / qnorm v) • v

/-- Modelled from the spec: the missing `rodrigues` module — the standard
Rodrigues rotation formula of `v` about the unit axis `k` by `angle`
degrees, with the cosine and sine of the angle supplied as functions. -/
def rodriguesFormula (cosd sind : ℚ → ℚ) (v k : Vec3) (angle : ℚ) : Vec3 :=
  cosd angle • v + sind angle • Vec3.cross k v +
    ((1 - cosd angle) * Vec3.dot k v) • k

/-- Rational approximations of cos/sin of 20° (their exact values never
matter to the theorems that use them). -/
def cosdEx (_ : ℚ) : ℚ := 9397 / 10000

def sindEx (_ : ℚ) : ℚ := 342 / 1000

/-- A concrete collaborator bundle for witnesses: exact computable norm and
unit vector, Rodrigues by the formula, a non-rotating planet
(`piQ = 0`), flat interpolation tables, zero thrust and density, and a UPFG
returning its internal state unchanged with a fixed guidance output. -/
def opsEx (guid : Guidance) : Ops :=
  { nrm := qnorm, sqrtQ := qsqrt, atan2 := fun _ _ => 0,
    cosQ := fun _ => 1, sinQ := fun _ => 0, piQ := 0, unit := unitQ,
    rodrigues := rodriguesFormula cosdEx sindEx,
    approx_from_curve := fun _ _ => 0, get_thrust := fun _ _ _ => (0, 0),
    calculate_air_density := fun _ _ => 0,
    get_angle_from_frame := fun _ _ _ => 0,
    get_orbital_elements := fun _ _ => (0, 0, 0, 0, 0, 0, 0, 0),
    get_max_value := fun _ => (0, 0),
    upfg_call := fun _ _ _ u => (u, guid, ⟨0, 0, 0⟩) }

/-- Concrete globals for witnesses: a planet of radius 100. -/
def gEx : Globals :=
  { mu := 1, g0 := 1, R := 100, period := 1, convergence_criterion := 1,
    atmpressure := [], atmtemperature := [] }

/-- A single concrete stage for witnesses. -/
def stEx (mt : ℚ) : Stage :=
  { mode := 1, m0 := 1000, gLim := 0, engines := [], area := 0, drag := [],
    maxT := mt }

/-!
## Structural lemmas about one loop iteration
-/

/-- The fields of the simulation state that the GUIDANCE section never
writes. -/
def sameCore (σ σ₁ : SimState) : Prop :=
  σ₁.t = σ.t ∧ σ₁.F = σ.F ∧ σ₁.acc = σ.acc ∧ σ₁.q = σ.q ∧ σ₁.r = σ.r ∧
  σ₁.rmag = σ.rmag ∧ σ₁.v = σ.v ∧ σ₁.vmag = σ.vmag ∧ σ₁.vy = σ.vy ∧
  σ₁.vt = σ.vt ∧ σ₁.vair = σ.vair ∧ σ₁.vairmag = σ.vairmag ∧
  σ₁.angPS = σ.angPS ∧ σ₁.angYS = σ.angYS ∧ σ₁.angPO = σ.angPO ∧
  σ₁.angYO = σ.angYO ∧ σ₁.nav = σ.nav ∧ σ₁.rnc = σ.rnc ∧ σ₁.m = σ.m ∧
  σ₁.dt = σ.dt ∧ σ₁.jet = σ.jet

/-!
## Claim C4 — jettison one-shot semantics
-/

/-- The mass shed by one entry during one sweep. -/
def firedDelta (t0 ti : ℚ) (e : ℚ × ℚ) : ℚ :=
  if (jetEntryStep t0 ti e).2 then e.2 else 0

/-- How often a single jettison entry fires across an arbitrary sequence of
sweeps (each sweep is a pair of the sweeping phase's start time `t[0]` and
current time `t[i]`), threading the entry's mutated time through — this is
what happens to one row of the shared `jettison` array across the steps of
one phase and across subsequent phases. -/
def jetEntryRuns : List (ℚ × ℚ) → (ℚ × ℚ) → ℕ
  | [], _ => 0
  | p :: ps, e =>
      (if (jetEntryStep p.1 p.2 e).2 then 1 else 0) +
        jetEntryRuns ps (jetEntryStep p.1 p.2 e).1

/-- A concrete mid-flight state for the gravity-turn witness. -/
def σW : SimState :=
  { t := [0], F := [], acc := [0], q := [], pitch := [0], yaw := [0],
    g_loss := 0, d_loss := 0, r := [⟨200, 0, 0⟩], rmag := [200],
    v := [⟨0, 0, 0⟩], vmag := [0], vy := [0], vt := [0],
    vair := [⟨0, 0, 0⟩], vairmag := [1], angPS := [0], angYS := [0],
    angPO := [0], angYO := [0], nav := ⟨⟨1, 0, 0⟩, ⟨0, 1, 0⟩, ⟨0, 0, 1⟩⟩,
    rnc := ⟨⟨1, 0, 0⟩, ⟨0, 1, 0⟩, ⟨0, 0, 1⟩⟩, m := 1000, eng := 1, dt := 1,
    GT := 0, lc := 0, guidance := ⟨0, 0, 0⟩, upfg_internal := none,
    dbg := none, jet := [] }

/-!
## Claim C6 — the synthesized UPFG seed
-/

/-- Orthogonal projection onto the plane with unit normal `n`. -/
def projPlane (v n : Vec3) : Vec3 := v - Vec3.dot v n • n

/-- Modelled from the spec: the desired burnout position as the spec
sentence describes it — the projection of the position unit vector onto the
target plane, then the 20° prograde Rodrigues rotation about the target
normal, then scaling to `target.radius`.  Defined only for comparison with
the source's construction (`synthSeed`), which performs no projection. -/
def specSeedRd (o : Ops) (tgt : Target) (r0 : Vec3) : Vec3 :=
  tgt.radius • o.rodrigues (projPlane (o.unit r0) tgt.normal) (-tgt.normal) 20

def oC6 : Ops := opsEx ⟨0, 0, 0⟩

def tgtC6 : Target := ⟨1000, 500, ⟨0, 0, 1⟩⟩

/-!
## Concrete configurations for witnesses and counterexamples
-/

/-- A coast phase of length 0 started mid-flight: one full iteration, then
the elapsed-time break. -/
def cfgCoast : Config :=
  { o := opsEx ⟨0, 0, 0⟩, g := gEx, vehicle := [stEx 5], stage := 0,
    initial := .inFlight 0 ⟨200, 0, 0⟩ ⟨0, 0, 0⟩ none, control := .coast 0,
    jettison := [], dt0 := 1, probe := none }

/-- A gravity-turn phase with max burn time 1 s and Δt = 1 s: two
iterations, then the elapsed-time break with the engine still running. -/
def cfgGT : Config :=
  { o := opsEx ⟨0, 0, 0⟩, g := gEx, vehicle := [stEx 1], stage := 0,
    initial := .inFlight 0 ⟨200, 0, 0⟩ ⟨0, 0, 0⟩ none,
    control := .gravityTurn 10 1000 90, jettison := [], dt0 := 1,
    probe := none }

/-- A UPFG phase whose (abstract) guidance reports `tgo = 1/2 < Δt = 1`:
the scheduled-cutoff check fires at the first iteration. -/
def cfgU : Config :=
  { o := opsEx ⟨5, 6, 1/2⟩, g := gEx, vehicle := [stEx 10], stage := 0,
    initial := .inFlight 0 ⟨200, 0, 0⟩ ⟨1, 2, 3⟩ none,
    control := .upfg ⟨1000, 500, ⟨0, 0, 1⟩⟩ 5, jettison := [], dt0 := 1,
    probe := none }

/-- A coast phase with a jettison event scheduled inside it. -/
def cfgJet : Config :=
  { o := opsEx ⟨0, 0, 0⟩, g := gEx, vehicle := [stEx 5], stage := 0,
    initial := .inFlight 0 ⟨200, 0, 0⟩ ⟨0, 0, 0⟩ none, control := .coast 5,
    jettison := [(1/2, 100)], dt0 := 1, probe := none }

/-- A phase starting at altitude exactly −10 m (`rmag = R − 10`). -/
def cfgCrashEq : Config :=
  { o := opsEx ⟨0, 0, 0⟩, g := gEx, vehicle := [stEx 5], stage := 0,
    initial := .inFlight 0 ⟨90, 0, 0⟩ ⟨0, 0, 0⟩ none, control := .coast 5,
    jettison := [], dt0 := 1, probe := none }

/-- A phase starting well below the crash threshold. -/
def cfgCrashLow : Config :=
  { o := opsEx ⟨0, 0, 0⟩, g := gEx, vehicle := [stEx 5], stage := 0,
    initial := .inFlight 0 ⟨50, 0, 0⟩ ⟨0, 0, 0⟩ none, control := .coast 5,
    jettison := [], dt0 := 1, probe := none }

/-!
## Loop invariants used by the claims
-/

/-- The invariant backing claim C2: the engine flag is nonzero and (from
the second iteration on) the previous end-of-step time check did not
trigger, so the UPFG fuel check cannot trigger either. -/
def noFuelCut (cfg : Config) (i : ℕ) (σ : SimState) : Prop :=
  σ.eng ≠ 0 ∧
    (2 ≤ i → ¬(σ.t.getD (i - 1) 0 - σ.t.getD 0 0 > maxTof cfg))

/-- The invariant backing claim C7: every history index strictly before the
previous one holds a position magnitude above the crash threshold. -/
def noCrashBelow (cfg : Config) (i : ℕ) (σ : SimState) : Prop :=
  ∀ j, j + 1 < i → σ.rmag.getD j 0 > cfg.g.R - 10

/-- Equal length `i` for the sixteen per-step histories that every control
type writes. -/
def lens16 (i : ℕ) (σ : SimState) : Prop :=
  σ.t.length = i ∧ σ.F.length = i ∧ σ.acc.length = i ∧ σ.q.length = i ∧
  σ.r.length = i ∧ σ.rmag.length = i ∧ σ.v.length = i ∧
  σ.vmag.length = i ∧ σ.vy.length = i ∧ σ.vt.length = i ∧
  σ.vair.length = i ∧ σ.vairmag.length = i ∧ σ.angPS.length = i ∧
  σ.angYS.length = i ∧ σ.angPO.length = i ∧ σ.angYO.length = i

/-- Length at most 1 for the sixteen always-written histories (the state of
affairs right after initialisation). -/
def lens16Init (σ : SimState) : Prop :=
  σ.t.length ≤ 1 ∧ σ.F.length ≤ 1 ∧ σ.acc.length ≤ 1 ∧ σ.q.length ≤ 1 ∧
  σ.r.length ≤ 1 ∧ σ.rmag.length ≤ 1 ∧ σ.v.length ≤ 1 ∧
  σ.vmag.length ≤ 1 ∧ σ.vy.length ≤ 1 ∧ σ.vt.length ≤ 1 ∧
  σ.vair.length ≤ 1 ∧ σ.vairmag.length ≤ 1 ∧ σ.angPS.length ≤ 1 ∧
  σ.angYS.length ≤ 1 ∧ σ.angPO.length ≤ 1 ∧ σ.angYO.length ≤ 1

/-- The invariant backing claim C1, at entry to iteration `i`: after at
least one full iteration the sixteen always-written histories have exact
length `i`; `pitch`/`yaw` have length `i` for the three guided control
types but stay empty forever in a coast phase. -/
def lensInv (cst : Bool) (i : ℕ) (σ : SimState) : Prop :=
  (if 2 ≤ i then lens16 i σ ∧
      (cst = true → σ.pitch = [] ∧ σ.yaw = []) ∧
      (cst = false → σ.pitch.length = i ∧ σ.yaw.length = i)
   else lens16Init σ ∧
      (cst = true → σ.pitch = [] ∧ σ.yaw = []) ∧
      (cst = false → σ.pitch.length ≤ 1 ∧ σ.yaw.length ≤ 1))

/-- The length facts holding of the state in which the loop exits at
index `i`: the sixteen always-written histories have length at least `i`
(either `i` or `i+1`, depending on the break point), so the `[0:i]` trim
yields exactly `i` samples of each; `pitch`/`yaw` likewise for guided
control types, but stay empty in coast phases. -/
def lensExit (cst : Bool) (i : ℕ) (σ : SimState) : Prop :=
  (i ≤ σ.t.length ∧ i ≤ σ.F.length ∧ i ≤ σ.acc.length ∧ i ≤ σ.q.length ∧
   i ≤ σ.r.length ∧ i ≤ σ.rmag.length ∧ i ≤ σ.v.length ∧
   i ≤ σ.vmag.length ∧ i ≤ σ.vy.length ∧ i ≤ σ.vt.length ∧
   i ≤ σ.vair.length ∧ i ≤ σ.vairmag.length ∧ i ≤ σ.angPS.length ∧
   i ≤ σ.angYS.length ∧ i ≤ σ.angPO.length ∧ i ≤ σ.angYO.length) ∧
  (cst = true → σ.pitch = [] ∧ σ.yaw = []) ∧
  (cst = false → i ≤ σ.pitch.length ∧ i ≤ σ.yaw.length)

/-!
## Theorems

The section-local `semireducible` attributes below undo the
`@[irreducible]` marking of the ℚ arithmetic primitives so that closed
witness and counterexample statements evaluate inside `decide`; the kernel
re-checks those evaluations in full.
-/

section EvalProofs

attribute [local semireducible] Rat.mul Rat.add Rat.sub Rat.inv
  Rat.ofScientific

set_option maxRecDepth 200000

theorem gset_length (l : List α) (d : α) (i : ℕ) (v : α) :
    (gset l d i v).length = max l.length (i + 1) := by
  unfold gset
  split
  · next h =>
    simp [List.length_set, List.length_append, List.length_replicate]
    omega
  · next h =>
    simp [List.length_set]
    omega

theorem gset_eq_append (l : List α) (d : α) (v : α) (h : l.length = i) :
    gset l d i v = l ++ [v] := by
  subst h
  unfold gset
  rw [if_pos (le_refl _)]
  simp [List.set_append_right, List.replicate_succ]

theorem gset_of_lt (l : List α) (d : α) (v : α) (h : i < l.length) :
    gset l d i v = l.set i v := by
  unfold gset
  rw [if_neg (by omega)]

theorem getD_gset_self (l : List α) (d d' : α) (i : ℕ) (v : α) :
    (gset l d i v).getD i d' = v := by
  unfold gset
  split
  · next h =>
    rw [List.getD_eq_getElem?_getD, List.getElem?_set_self]
    · simp
    · simp [List.length_append, List.length_replicate]; omega
  · next h =>
    rw [List.getD_eq_getElem?_getD, List.getElem?_set_self]
    · simp
    · omega

theorem getD_gset_ne (l : List α) (d : α) (i j : ℕ) (v : α) (hij : j ≠ i)
    (hj : j < l.length) :
    (gset l d i v).getD j d = l.getD j d := by
  unfold gset
  split
  · next h =>
    rw [List.getD_eq_getElem?_getD, List.getElem?_set_ne (by omega),
      List.getElem?_append_left hj, List.getD_eq_getElem?_getD]
  · next h =>
    rw [List.getD_eq_getElem?_getD, List.getElem?_set_ne (by omega),
      List.getD_eq_getElem?_getD]

theorem getD_take (l : List α) (d : α) (n j : ℕ) (hj : j < n) :
    (l.take n).getD j d = l.getD j d := by
  rw [List.getD_eq_getElem?_getD, List.getD_eq_getElem?_getD,
    List.getElem?_take_of_lt hj]

/-!
## Basic algebra and list lemmas
-/

theorem Vec3.add_def (a b : Vec3) :
    a + b = ⟨a.x + b.x, a.y + b.y, a.z + b.z⟩ := rfl

theorem Vec3.sub_def (a b : Vec3) :
    a - b = ⟨a.x - b.x, a.y - b.y, a.z - b.z⟩ := rfl

theorem Vec3.smul_def (c : ℚ) (a : Vec3) :
    c • a = ⟨c * a.x, c * a.y, c * a.z⟩ := rfl

/-- The algebraic identity between the source's velocity update
`v[i-1] + acv*dt - G*dt - D*unit(vair)*dt` and the spec's
`v_{i−1} + (a_thr − G − D·u)·Δt`. -/
theorem euler_combine (v a G u : Vec3) (d D : ℚ) :
    v + d • a - d • G - (D * d) • u = v + d • (a - G - D • u) := by
  cases v; cases a; cases G; cases u
  simp only [Vec3.smul_def, Vec3.sub_def, Vec3.add_def, Vec3.mk.injEq]
  refine ⟨by ring, by ring, by ring⟩

/-- Writing at an index `≥ j` (with the read default equal to the growth
default) does not change the value read at `j`. -/
theorem getD_gset_lt (l : List α) (d : α) (i j : ℕ) (v : α) (hij : j < i) :
    (gset l d i v).getD j d = l.getD j d := by
  unfold gset
  split
  · next h =>
    rw [List.getD_eq_getElem?_getD, List.getElem?_set_ne (by omega)]
    by_cases hj : j < l.length
    · rw [List.getElem?_append_left hj, List.getD_eq_getElem?_getD]
    · rw [List.getElem?_append_right (by omega),
        List.getElem?_replicate_of_lt (by omega),
        List.getD_eq_default _ _ (by omega)]
      rfl
  · next h =>
    rw [List.getD_eq_getElem?_getD, List.getElem?_set_ne (by omega),
      List.getD_eq_getElem?_getD]

theorem upfgCycle_sameCore (cfg : Config) (tgt : Target) (ct : ℚ) (i : ℕ)
    (σ : SimState) : sameCore σ (upfgCycle cfg tgt ct i σ) := by
  unfold upfgCycle
  split <;> simp [sameCore]

theorem upfgCycle_eng (cfg : Config) (tgt : Target) (ct : ℚ) (i : ℕ)
    (σ : SimState) : (upfgCycle cfg tgt ct i σ).eng = σ.eng := by
  unfold upfgCycle
  split <;> rfl

theorem guid_sameCore (cfg : Config) (i : ℕ) (σ : SimState) :
    sameCore σ (guidanceStep cfg i σ).1 := by
  cases hc : cfg.control with
  | gravityTurn gtiP gtiV azim => simp [guidanceStep, hc, sameCore]
  | pitchProgram prog azim => simp [guidanceStep, hc, sameCore]
  | upfg tgt ct =>
      have hcyc := upfgCycle_sameCore cfg tgt ct i σ
      simp only [guidanceStep, hc, upfgGuid]
      split
      · simp [sameCore]
      · split
        · simpa [sameCore] using hcyc
        · split
          · simpa [sameCore] using hcyc
          · simpa [sameCore] using hcyc
  | coast len => simp [guidanceStep, hc, sameCore]

/-- A guidance `break` only happens in the UPFG branch and sets the engine
flag to 0 (with the fuel-check condition holding), 2 or 3. -/
theorem guid_break_eng (cfg : Config) (i : ℕ) (σ σ₁ : SimState)
    (h : guidanceStep cfg i σ = (σ₁, false)) :
    (σ₁.eng = 0 ∧ 0 < σ.eng ∧
      σ.t.getD (i - 1) 0 - σ.t.getD 0 0 > maxTof cfg) ∨
    σ₁.eng = 2 ∨ σ₁.eng = 3 := by
  cases hc : cfg.control with
  | gravityTurn gtiP gtiV azim => simp [guidanceStep, hc] at h
  | pitchProgram prog azim => simp [guidanceStep, hc] at h
  | upfg tgt ct =>
      simp only [guidanceStep, hc, upfgGuid] at h
      split at h
      · next hcond =>
        injection h with h1 h2
        subst h1
        exact Or.inl ⟨rfl, hcond.2, hcond.1⟩
      · split at h
        · injection h with h1 h2
          subst h1
          exact Or.inr (Or.inl rfl)
        · split at h
          · injection h with h1 h2
            subst h1
            exact Or.inr (Or.inr rfl)
          · simp at h
  | coast len => simp [guidanceStep, hc] at h

/-- A guidance continuation leaves the engine flag unchanged. -/
theorem guid_cont_eng (cfg : Config) (i : ℕ) (σ σ₁ : SimState)
    (h : guidanceStep cfg i σ = (σ₁, true)) : σ₁.eng = σ.eng := by
  cases hc : cfg.control with
  | gravityTurn gtiP gtiV azim =>
      simp only [guidanceStep, hc] at h
      injection h with h1 h2
      subst h1
      rfl
  | pitchProgram prog azim =>
      simp only [guidanceStep, hc] at h
      injection h with h1 h2
      subst h1
      rfl
  | upfg tgt ct =>
      simp only [guidanceStep, hc, upfgGuid] at h
      split at h
      · simp at h
      · split at h
        · simp at h
        · split at h
          · simp at h
          · injection h with h1 h2
            subst h1
            exact upfgCycle_eng cfg tgt ct i σ
  | coast len =>
      simp only [guidanceStep, hc] at h
      injection h with h1 h2
      subst h1
      rfl

theorem physBody_eng (cfg : Config) (i : ℕ) (σ : SimState) :
    (physBody cfg i σ).eng = σ.eng := rfl

theorem physBody_t (cfg : Config) (i : ℕ) (σ : SimState) :
    (physBody cfg i σ).t = gset σ.t 0 i (rvmtNew cfg i σ).2.2.2 := rfl

theorem physBody_rmag (cfg : Config) (i : ℕ) (σ : SimState) :
    (physBody cfg i σ).rmag = gset σ.rmag 0 i (cfg.o.nrm (rvmtNew cfg i σ).1) :=
  rfl

theorem physBody_pitch (cfg : Config) (i : ℕ) (σ : SimState) :
    (physBody cfg i σ).pitch = σ.pitch := rfl

theorem physBody_yaw (cfg : Config) (i : ℕ) (σ : SimState) :
    (physBody cfg i σ).yaw = σ.yaw := rfl

theorem physStep_crash (cfg : Config) (i : ℕ) (σ : SimState)
    (h : σ.rmag.getD (i - 1) 0 ≤ cfg.g.R - 10) :
    physStep cfg i σ = ({ σ with eng := -100 }, false) := by
  unfold physStep
  rw [if_pos h]

theorem physStep_nocrash_fst (cfg : Config) (i : ℕ) (σ : SimState)
    (h : ¬σ.rmag.getD (i - 1) 0 ≤ cfg.g.R - 10) :
    (physStep cfg i σ).1 = physBody cfg i σ := by
  simp only [physStep, if_neg h]
  split <;> rfl

theorem physStep_cont_iff (cfg : Config) (i : ℕ) (σ : SimState)
    (h : ¬σ.rmag.getD (i - 1) 0 ≤ cfg.g.R - 10) :
    ((physStep cfg i σ).2 = true ↔
      ¬((physBody cfg i σ).t.getD i 0 - (physBody cfg i σ).t.getD 0 0 >
        maxTof cfg)) := by
  unfold physStep
  rw [if_neg h]
  split
  · next hcond => exact iff_of_false (by simp) (not_not_intro hcond)
  · next hcond => exact iff_of_true rfl hcond

/-- Any outcome of the PHYSICS section leaves the engine flag unchanged,
except the crash break which sets −100. -/
theorem physStep_eng (cfg : Config) (i : ℕ) (σ : SimState) :
    (physStep cfg i σ).1.eng = σ.eng ∨
    ((physStep cfg i σ).1.eng = -100 ∧ (physStep cfg i σ).2 = false) := by
  by_cases h : σ.rmag.getD (i - 1) 0 ≤ cfg.g.R - 10
  · rw [physStep_crash cfg i σ h]
    exact Or.inr ⟨rfl, rfl⟩
  · rw [physStep_nocrash_fst cfg i σ h]
    exact Or.inl rfl

/-- The generic induction principle for the main loop: an invariant `P`
preserved by continuing steps, turned into `Q` at every exit point, holds of
the loop's result. -/
theorem run_spec (cfg : Config) (P : ℕ → SimState → Prop)
    (Q : ℕ → SimState → Prop)
    (hc : ∀ i σ σ', 1 ≤ i → P i σ → step cfg i σ = (σ', true) → P (i + 1) σ')
    (hb : ∀ i σ σ', 1 ≤ i → P i σ → step cfg i σ = (σ', false) → Q i σ')
    (hex : ∀ i σ, 2 ≤ i → P i σ → Q (i - 1) σ) :
    ∀ (k i : ℕ) (σ : SimState), 1 ≤ i → (k = 0 → 2 ≤ i) → P i σ →
      Q (run cfg k i σ).1 (run cfg k i σ).2
  | 0, i, σ, _, hk, hp => by
      simpa [run] using hex i σ (hk rfl) hp
  | k + 1, i, σ, hi, _, hp => by
      rw [run]
      rcases hs : step cfg i σ with ⟨σ', b⟩
      cases b
      · simpa using hb i σ σ' hi hp hs
      · simpa using run_spec cfg P Q hc hb hex k (i + 1) σ'
          (by omega) (fun _ => by omega) (hc i σ σ' hi hp hs)

theorem run_le (cfg : Config) :
    ∀ (k i : ℕ) (σ : SimState), (run cfg k i σ).1 ≤ i + k - 1
  | 0, i, σ => by simp [run]
  | k + 1, i, σ => by
      rw [run]
      rcases hs : step cfg i σ with ⟨σ', b⟩
      cases b
      · show i ≤ i + (k + 1) - 1
        omega
      · have h := run_le cfg k (i + 1) σ'
        show (run cfg k (i + 1) σ').1 ≤ i + (k + 1) - 1
        omega

/-- C10: for every input (any collaborators, any control, any state probe —
including one whose timestamps never advance, making the recomputed Δt
zero), the main loop `for i in xrange(1, 1000000)` executes at most 999999
iterations: the exit index returned by `run`, which equals the number of
iterations entered, never exceeds 999999, so `flight_sim_3d` always
terminates. -/
theorem C10_loop_at_most_999999 (cfg : Config) : (flightRun cfg).1 ≤ 999999 := by
  have h := run_le cfg 999999 1 (initState cfg)
  simpa [flightRun] using h

theorem jetPass_mass (t0 ti : ℚ) :
    ∀ (js : List (ℚ × ℚ)) (m : ℚ),
      (jetPass t0 ti m js).1 = m - (js.map (firedDelta t0 ti)).sum
  | [], m => by simp [jetPass]
  | e :: es, m => by
      rw [jetPass]
      rcases hs : jetEntryStep t0 ti e with ⟨e', fired⟩
      cases fired <;> (simp [jetPass_mass t0 ti es, firedDelta, hs]; try ring)

theorem jetPass_nofire (t0 ti : ℚ) :
    ∀ (js : List (ℚ × ℚ)) (m : ℚ),
      (∀ e ∈ js, (jetEntryStep t0 ti e).2 = false) →
      (jetPass t0 ti m js).1 = m := by
  intro js m h
  rw [jetPass_mass]
  have : (js.map (firedDelta t0 ti)).sum = 0 := by
    apply List.sum_eq_zero
    intro x hx
    rcases List.mem_map.mp hx with ⟨e, he, rfl⟩
    simp [firedDelta, h e he]
  rw [this, sub_zero]

theorem jetEntryStep_nofire_id (t0 ti : ℚ) (e : ℚ × ℚ)
    (h : (jetEntryStep t0 ti e).2 = false) : (jetEntryStep t0 ti e).1 = e := by
  by_cases h1 : e.1 < t0
  · unfold jetEntryStep
    rw [if_pos h1]
  · by_cases h2 : e.1 ≤ ti
    · exfalso
      unfold jetEntryStep at h
      rw [if_neg h1, if_pos h2] at h
      simp at h
    · unfold jetEntryStep
      rw [if_neg h1, if_neg h2]

theorem jetEntryStep_fired_sentinel (t0 ti : ℚ) (e : ℚ × ℚ)
    (h : (jetEntryStep t0 ti e).2 = true) :
    (jetEntryStep t0 ti e).1 = (-1, e.2) := by
  by_cases h1 : e.1 < t0
  · exfalso
    unfold jetEntryStep at h
    rw [if_pos h1] at h
    simp at h
  · by_cases h2 : e.1 ≤ ti
    · unfold jetEntryStep
      rw [if_neg h1, if_pos h2]
    · exfalso
      unfold jetEntryStep at h
      rw [if_neg h1, if_neg h2] at h
      simp at h

theorem jetEntryStep_neg_skip (t0 ti : ℚ) (e : ℚ × ℚ) (he : e.1 < 0)
    (ht : 0 ≤ t0) : jetEntryStep t0 ti e = (e, false) := by
  unfold jetEntryStep
  rw [if_pos (lt_of_lt_of_le he ht)]

theorem jetEntryRuns_neg :
    ∀ (ps : List (ℚ × ℚ)) (e : ℚ × ℚ), (∀ p ∈ ps, 0 ≤ p.1) → e.1 < 0 →
      jetEntryRuns ps e = 0
  | [], _, _, _ => rfl
  | p :: ps, e, hp, he => by
      rw [jetEntryRuns,
        jetEntryStep_neg_skip p.1 p.2 e he (hp p (by simp))]
      simpa using jetEntryRuns_neg ps e (fun q hq => hp q (by simp [hq])) he

theorem jetEntryRuns_le_one :
    ∀ (ps : List (ℚ × ℚ)) (e : ℚ × ℚ), (∀ p ∈ ps, 0 ≤ p.1) →
      jetEntryRuns ps e ≤ 1
  | [], _, _ => by simp [jetEntryRuns]
  | p :: ps, e, hp => by
      rw [jetEntryRuns]
      rcases hf : (jetEntryStep p.1 p.2 e).2 with _ | _
      · rw [jetEntryStep_nofire_id p.1 p.2 e hf]
        simpa using jetEntryRuns_le_one ps e fun q hq => hp q (by simp [hq])
      · rw [jetEntryStep_fired_sentinel p.1 p.2 e hf,
          jetEntryRuns_neg ps (-1, e.2) (fun q hq => hp q (by simp [hq]))
            (by norm_num)]
        simp [hf]

/-- C4: at each sweep a jettison entry scheduled before the phase start time
is ignored; otherwise, once its time is ≤ the current simulation time, its
mass delta is subtracted (the sweep's mass drop is exactly the sum of the
fired deltas) and its time is overwritten with the negative sentinel −1; and
across any sequence of sweeps — within a phase or across subsequent phases —
whose start times are all non-negative, the entry fires at most once. -/
theorem C4_jettison_fires_at_most_once (t0 ti m : ℚ) (e : ℚ × ℚ)
    (js : List (ℚ × ℚ)) (passes : List (ℚ × ℚ))
    (hpass : ∀ p ∈ passes, 0 ≤ p.1) :
    (e.1 < t0 → jetEntryStep t0 ti e = (e, false)) ∧
    (¬e.1 < t0 → e.1 ≤ ti →
      jetEntryStep t0 ti e = ((-1, e.2), true) ∧ (-1 : ℚ) < 0) ∧
    (jetPass t0 ti m js).1 = m - (js.map (firedDelta t0 ti)).sum ∧
    jetEntryRuns passes e ≤ 1 := by
  refine ⟨fun h => ?_, fun h1 h2 => ⟨?_, by norm_num⟩,
    jetPass_mass t0 ti js m, jetEntryRuns_le_one passes e hpass⟩
  · unfold jetEntryStep
    rw [if_pos h]
  · unfold jetEntryStep
    rw [if_neg h1, if_pos h2]

theorem C4_witness :
    (∀ p ∈ ([(0, 1), (0, 2), (3, 9)] : List (ℚ × ℚ)), 0 ≤ p.1) ∧
    jetEntryRuns ([(0, 1), (0, 2), (3, 9)] : List (ℚ × ℚ)) (1/2, 100) ≤ 1 ∧
    (jetPass 0 1 1000 [((1/2 : ℚ), (100 : ℚ))]).1 =
      1000 - ([((1/2 : ℚ), (100 : ℚ))].map (firedDelta 0 1)).sum := by
  have h := C4_jettison_fires_at_most_once 0 1 1000 (1/2, 100)
    [((1/2 : ℚ), (100 : ℚ))] [(0, 1), (0, 2), (3, 9)] (by decide)
  exact ⟨by decide, h.2.2.2, h.2.2.1⟩

/-!
## Claim C5 — gravity-turn commands
-/

/-- C5: in a gravity-turn phase, the commanded pitch at step `i` is 0 in the
RISING state (`GT = 0`), `min(previous pitch + Δt·1°/s, kickover pitch)` in
the KICKING state (`GT = 1`) and the latest surface-relative flight pitch
angle in PROGRADE_LOCK (`GT = 2`); the commanded yaw is the configured
azimuth in every state; a KICKING command never exceeds the kickover pitch;
and with a non-negative Δt a KICKING command at a step whose previous
command was itself bounded by the kickover pitch (as every KICKING command
is) never decreases — the claimed monotonicity. -/
theorem C5_gravity_turn_commands (o : Ops) (g : Globals) (veh : List Stage)
    (stg0 : ℕ) (ini : Initial) (jetl : List (ℚ × ℚ)) (d0 : ℚ)
    (probe : Option (ℕ → Vec3 × Vec3 × ℚ × ℚ)) (gtiP gtiV azim : ℚ) (i : ℕ)
    (σ : SimState) :
    let cfg : Config :=
      ⟨o, g, veh, stg0, ini, .gravityTurn gtiP gtiV azim, jetl, d0, probe⟩
    let gt := gtNext σ gtiP gtiV i
    let σ' := (guidanceStep cfg i σ).1
    (guidanceStep cfg i σ).2 = true ∧
    σ'.pitch.getD i 0 =
      (if gt = 0 then 0
       else if gt = 1 then min (σ.pitch.getD (i - 1) 0 + σ.dt) gtiP
       else σ.angPS.getD (i - 1) 0) ∧
    σ'.yaw.getD i 0 = azim ∧
    (gt = 1 → σ'.pitch.getD i 0 ≤ gtiP) ∧
    (0 ≤ σ.dt → gt = 1 → σ.pitch.getD (i - 1) 0 ≤ gtiP →
      σ.pitch.getD (i - 1) 0 ≤ σ'.pitch.getD i 0) := by
  intro cfg gt σ'
  have hpitch : σ'.pitch = gset σ.pitch 0 i (gtPitchCmd σ gtiP i gt) := rfl
  have hyaw : σ'.yaw = gset σ.yaw 0 i azim := rfl
  have hval : σ'.pitch.getD i 0 = gtPitchCmd σ gtiP i gt := by
    rw [hpitch, getD_gset_self]
  refine ⟨rfl, by rw [hval]; rfl, by rw [hyaw, getD_gset_self], ?_, ?_⟩
  · intro h1
    rw [hval]
    unfold gtPitchCmd
    rw [if_neg (by omega), if_pos h1]
    exact min_le_right _ _
  · intro hdt h1 hbound
    rw [hval]
    unfold gtPitchCmd
    rw [if_neg (by omega), if_pos h1]
    exact le_min (by linarith) hbound

theorem C5_witness :
    gtNext σW 10 (-5) 1 = 1 ∧ 0 ≤ σW.dt ∧ σW.pitch.getD 0 0 ≤ 10 ∧
    σW.pitch.getD 0 0 ≤
      (guidanceStep ⟨opsEx ⟨0, 0, 0⟩, gEx, [stEx 1], 0,
        .inFlight 0 ⟨200, 0, 0⟩ ⟨0, 0, 0⟩ none, .gravityTurn 10 (-5) 90, [],
        1, none⟩ 1 σW).1.pitch.getD 1 0 := by
  have h := C5_gravity_turn_commands (opsEx ⟨0, 0, 0⟩) gEx [stEx 1] 0
    (.inFlight 0 ⟨200, 0, 0⟩ ⟨0, 0, 0⟩ none) [] 1 none 10 (-5) 90 1 σW
  exact ⟨by decide, by decide, by decide,
    h.2.2.2.2 (by decide) (by decide) (by decide)⟩

/-!
## Claim C3 — the integrator's state update
-/

/-- C3: at every integration step that reaches the physics block, with no
external state probe, the state update is the spec's semi-implicit Euler
step: `G = μ·r_{i−1}/‖r_{i−1}‖³` (the stored magnitude `rmag[i-1]` is
`‖r_{i−1}‖`); `v_i = v_{i−1} + (a_thr − G − D·unit(v_air,i−1))·Δt`;
`r_i = r_{i−1} + v_i·Δt` using the already-updated velocity; the write-back
mass is `m − dm_i·Δt` (jettison events, claim C4, are applied separately
afterwards); `t_i = t_{i−1} + Δt`; and the scalar gravity and drag losses
accumulate `‖G‖·Δt` and `D·Δt` at every such step. -/
theorem C3_semi_implicit_euler_step (o : Ops) (g : Globals)
    (veh : List Stage) (stg0 : ℕ) (ini : Initial) (ctrl : Control)
    (jetl : List (ℚ × ℚ)) (d0 : ℚ) (i : ℕ) (σ : SimState) :
    let cfg : Config := ⟨o, g, veh, stg0, ini, ctrl, jetl, d0, none⟩
    let σ' := physBody cfg i σ
    let G := Gvec cfg i σ
    let D := Dval cfg i σ
    G = (g.mu / σ.rmag.getD (i - 1) 0 ^ 3) • σ.r.getD (i - 1) Vec3.zero ∧
    σ'.v.getD i Vec3.zero = σ.v.getD (i - 1) Vec3.zero +
      σ.dt • (acvVec cfg i σ - G -
        D • o.unit (σ.vair.getD (i - 1) Vec3.zero)) ∧
    σ'.r.getD i Vec3.zero =
      σ.r.getD (i - 1) Vec3.zero + σ.dt • σ'.v.getD i Vec3.zero ∧
    (rvmtNew cfg i σ).2.2.1 = σ.m - (thrustCalc cfg i σ).2.1 * σ.dt ∧
    σ'.t.getD i 0 = σ.t.getD (i - 1) 0 + σ.dt ∧
    σ'.g_loss = σ.g_loss + o.nrm G * σ.dt ∧
    σ'.d_loss = σ.d_loss + D * σ.dt := by
  intro cfg σ' G D
  have hv : σ'.v.getD i Vec3.zero = (rvmtNew cfg i σ).2.1 := by
    show (gset σ.v Vec3.zero i (rvmtNew cfg i σ).2.1).getD i Vec3.zero = _
    rw [getD_gset_self]
  have hvform : (rvmtNew cfg i σ).2.1 =
      σ.v.getD (i - 1) Vec3.zero + σ.dt • acvVec cfg i σ - σ.dt • G -
        (D * σ.dt) • o.unit (σ.vair.getD (i - 1) Vec3.zero) := rfl
  refine ⟨rfl, ?_, ?_, rfl, ?_, rfl, rfl⟩
  · rw [hv, hvform]
    exact euler_combine _ _ _ _ _ _
  · have hr : σ'.r.getD i Vec3.zero = (rvmtNew cfg i σ).1 := by
      show (gset σ.r Vec3.zero i (rvmtNew cfg i σ).1).getD i Vec3.zero = _
      rw [getD_gset_self]
    rw [hr, hv]
    rfl
  · show (gset σ.t 0 i (rvmtNew cfg i σ).2.2.2).getD i 0 = _
    rw [getD_gset_self]
    rfl

/-- C6 counterexample: at a concrete state (position unit vector equal to
the target normal, nonzero current velocity, nonzero current time) the
synthesized seed has a nonzero `v` field and a nonzero `time` field —
refuting "all other fields are zero" — and its desired burnout position
differs from the spec's projected construction, refuting "the projection of
the position unit vector onto the target plane": the source rotates the
unprojected unit vector. -/
theorem C6_counterexample :
    (synthSeed oC6 gEx tgtC6 7 ⟨0, 0, 1⟩ ⟨1, 2, 3⟩ defaultCSER).v ≠
      Vec3.zero ∧
    (synthSeed oC6 gEx tgtC6 7 ⟨0, 0, 1⟩ ⟨1, 2, 3⟩ defaultCSER).time ≠ 0 ∧
    (synthSeed oC6 gEx tgtC6 7 ⟨0, 0, 1⟩ ⟨1, 2, 3⟩ defaultCSER).rd ≠
      specSeedRd oC6 tgtC6 ⟨0, 0, 1⟩ := by
  decide

/-- C6 amended: when a UPFG-controlled phase starts with no inbound
persistence record, the synthesized seed applies Rodrigues directly to the
position unit vector (no plane projection), scales to `target.radius`, sets
the velocity-to-go to `target.velocity·unit(−target.normal × rd) − v₀`, the
gravity integral to `−(μ/2)·r₀/‖r₀‖³`, the `time` field to the current time
and the `v` field to the current velocity, and zeroes the remaining fields
(CSE state, bias vector, burn-time-elapsed, tgo); and this seed is exactly
what the phase setup feeds the convergence loop whose result becomes the
phase's internal UPFG state. -/
theorem C6_amended_seed (o : Ops) (g : Globals) (tgt : Target) (t0 : ℚ)
    (r0 v0 : Vec3) (cser : CSERState) :
    let rd := tgt.radius • o.rodrigues (o.unit r0) (-tgt.normal) 20
    synthSeed o g tgt t0 r0 v0 cser =
      { cser := cser, rbias := Vec3.zero, rd := rd,
        rgrav := (-(g.mu / 2) / o.nrm r0 ^ 3) • r0, tb := 0, time := t0,
        tgo := 0, v := v0,
        vgo := tgt.velocity • o.unit (Vec3.cross (-tgt.normal) rd) - v0 } ∧
    ∀ (veh : List Stage) (stg0 : ℕ) (jetl : List (ℚ × ℚ)) (d0 ct : ℚ)
      (probe : Option (ℕ → Vec3 × Vec3 × ℚ × ℚ)),
      (initState ⟨o, g, veh, stg0, .inFlight t0 r0 v0 none, .upfg tgt ct,
        jetl, d0, probe⟩).upfg_internal =
      some (converge_upfg o g.convergence_criterion (veh.drop stg0) tgt
        ⟨t0, (veh.getD stg0 defaultStage).m0, r0, v0⟩
        (synthSeed o g tgt t0 r0 v0 defaultCSER) 50).1 := by
  exact ⟨rfl, fun veh stg0 jetl d0 ct probe => rfl⟩

theorem step_cont_elim (cfg : Config) (i : ℕ) (σ σ' : SimState)
    (h : step cfg i σ = (σ', true)) :
    ∃ σ₁, guidanceStep cfg i σ = (σ₁, true) ∧
      physStep cfg i σ₁ = (σ', true) := by
  unfold step at h
  rcases hg : guidanceStep cfg i σ with ⟨σ₁, b⟩
  rw [hg] at h
  cases b
  · simp at h
  · exact ⟨σ₁, rfl, h⟩

theorem step_break_elim (cfg : Config) (i : ℕ) (σ σ' : SimState)
    (h : step cfg i σ = (σ', false)) :
    guidanceStep cfg i σ = (σ', false) ∨
    ∃ σ₁, guidanceStep cfg i σ = (σ₁, true) ∧
      physStep cfg i σ₁ = (σ', false) := by
  unfold step at h
  rcases hg : guidanceStep cfg i σ with ⟨σ₁, b⟩
  rw [hg] at h
  cases b
  · injection h with h1 h2
    subst h1
    exact Or.inl rfl
  · exact Or.inr ⟨σ₁, rfl, h⟩

theorem phys_cont_elim (cfg : Config) (i : ℕ) (σ₁ σ' : SimState)
    (h : physStep cfg i σ₁ = (σ', true)) :
    ¬(σ₁.rmag.getD (i - 1) 0 ≤ cfg.g.R - 10) ∧ σ' = physBody cfg i σ₁ ∧
    ¬((physBody cfg i σ₁).t.getD i 0 - (physBody cfg i σ₁).t.getD 0 0 >
      maxTof cfg) := by
  by_cases hcr : σ₁.rmag.getD (i - 1) 0 ≤ cfg.g.R - 10
  · rw [physStep_crash cfg i σ₁ hcr] at h
    simp at h
  · unfold physStep at h
    rw [if_neg hcr] at h
    split at h
    · simp at h
    · next hcond =>
      injection h with h1 h2
      exact ⟨hcr, h1.symm, hcond⟩

theorem phys_break_elim (cfg : Config) (i : ℕ) (σ₁ σ' : SimState)
    (h : physStep cfg i σ₁ = (σ', false)) :
    (σ₁.rmag.getD (i - 1) 0 ≤ cfg.g.R - 10 ∧
      σ' = { σ₁ with eng := -100 }) ∨
    (¬(σ₁.rmag.getD (i - 1) 0 ≤ cfg.g.R - 10) ∧ σ' = physBody cfg i σ₁ ∧
      (physBody cfg i σ₁).t.getD i 0 - (physBody cfg i σ₁).t.getD 0 0 >
        maxTof cfg) := by
  by_cases hcr : σ₁.rmag.getD (i - 1) 0 ≤ cfg.g.R - 10
  · rw [physStep_crash cfg i σ₁ hcr] at h
    injection h with h1 h2
    exact Or.inl ⟨hcr, h1.symm⟩
  · unfold physStep at h
    rw [if_neg hcr] at h
    split at h
    · next hcond =>
      injection h with h1 h2
      exact Or.inr ⟨hcr, h1.symm, hcond⟩
    · simp at h

theorem initState_eng (cfg : Config) :
    (initState cfg).eng = 1 ∨ (initState cfg).eng = -1 := by
  cases hc : cfg.control <;> simp [initState, hc]

/-!
### Claim C2 — fuel-depletion code 0 is unreachable with a sensible burn time
-/

theorem noFuelCut_init (cfg : Config) : noFuelCut cfg 1 (initState cfg) := by
  constructor
  · rcases initState_eng cfg with h | h <;> rw [h] <;> decide
  · intro h2
    omega

theorem noFuelCut_cont (cfg : Config) (_h0 : 0 ≤ maxTof cfg) (i : ℕ)
    (σ σ' : SimState) (hi : 1 ≤ i) (hp : noFuelCut cfg i σ)
    (hs : step cfg i σ = (σ', true)) : noFuelCut cfg (i + 1) σ' := by
  rcases step_cont_elim cfg i σ σ' hs with ⟨σ₁, hg, hph⟩
  rcases phys_cont_elim cfg i σ₁ σ' hph with ⟨hcr, hbody, hcond⟩
  constructor
  · rw [hbody, physBody_eng, guid_cont_eng cfg i σ σ₁ hg]
    exact hp.1
  · intro _
    have : (i + 1) - 1 = i := by omega
    rw [this, hbody]
    exact hcond

theorem noFuelCut_break (cfg : Config) (h0 : 0 ≤ maxTof cfg) (i : ℕ)
    (σ σ' : SimState) (hi : 1 ≤ i) (hp : noFuelCut cfg i σ)
    (hs : step cfg i σ = (σ', false)) : σ'.eng ≠ 0 := by
  rcases step_break_elim cfg i σ σ' hs with hg | ⟨σ₁, hg, hph⟩
  · rcases guid_break_eng cfg i σ σ' hg with ⟨_, hpos, htime⟩ | h2 | h3
    · exfalso
      rcases Nat.lt_or_ge i 2 with hi1 | hi2
      · have : i = 1 := by omega
        subst this
        simp at htime
        exact absurd htime (not_lt.mpr h0)
      · exact (hp.2 hi2) htime
    · rw [h2]; decide
    · rw [h3]; decide
  · rcases phys_break_elim cfg i σ₁ σ' hph with ⟨_, hcrash⟩ | ⟨_, hbody, _⟩
    · rw [hcrash]
      show (-100 : ℤ) ≠ 0
      decide
    · rw [hbody, physBody_eng, guid_cont_eng cfg i σ σ₁ hg]
      exact hp.1

/-- C2 counterexample: a powered (gravity-turn) phase whose loop terminates
because the elapsed phase time exceeds the maximum burn time finalizes with
engine code 1 (running), not 0 — the fuel-depleted code never appears and
code 1 does appear in a finalized result. -/
theorem C2_counterexample :
    (flight_sim_3d cfgGT).eng = 1 ∧
    (flightRun cfgGT).2.t.getD (flightRun cfgGT).1 0 -
      (flightRun cfgGT).2.t.getD 0 0 > maxTof cfgGT := by
  constructor
  · decide
  · decide

/-- C2 amended: for every run whose effective maximum phase time is
non-negative, the finalized engine code is never 0: the elapsed-time
termination happens at the end-of-iteration check (source lines 486-487)
with the engine code unchanged, and the UPFG fuel check (source lines
358-360) that would set code 0 can only fire if the previous iteration's
end-of-iteration check already terminated the loop — which cannot happen —
or at the first iteration with a negative maximum burn time. -/
theorem C2_amended_no_fuel_code (cfg : Config) (h0 : 0 ≤ maxTof cfg) :
    (flight_sim_3d cfg).eng ≠ 0 := by
  have hrun := run_spec cfg (noFuelCut cfg) (fun _ σ' => σ'.eng ≠ 0)
    (fun i σ σ' hi hp hs => noFuelCut_cont cfg h0 i σ σ' hi hp hs)
    (fun i σ σ' hi hp hs => noFuelCut_break cfg h0 i σ σ' hi hp hs)
    (fun _ σ _ hp => hp.1) 999999 1 (initState cfg) (by omega)
    (by omega) (noFuelCut_init cfg)
  exact hrun

theorem C2_witness :
    0 ≤ maxTof cfgGT ∧ (flight_sim_3d cfgGT).eng ≠ 0 :=
  ⟨by decide, C2_amended_no_fuel_code cfgGT (by decide)⟩

/-!
### Claim C7 — crash detection
-/

theorem sameCore_rmag (σ σ₁ : SimState) (h : sameCore σ σ₁) :
    σ₁.rmag = σ.rmag := h.2.2.2.2.2.1

theorem noCrashBelow_cont (cfg : Config) (i : ℕ) (σ σ' : SimState)
    (hi : 1 ≤ i) (hp : noCrashBelow cfg i σ)
    (hs : step cfg i σ = (σ', true)) : noCrashBelow cfg (i + 1) σ' := by
  rcases step_cont_elim cfg i σ σ' hs with ⟨σ₁, hg, hph⟩
  rcases phys_cont_elim cfg i σ₁ σ' hph with ⟨hcr, hbody, _⟩
  have hrm : σ₁.rmag = σ.rmag := by
    have h := sameCore_rmag σ (guidanceStep cfg i σ).1 (guid_sameCore cfg i σ)
    rw [hg] at h
    exact h
  intro j hj
  rw [hbody, physBody_rmag, getD_gset_lt _ _ _ _ _ (by omega : j < i), hrm]
  rcases Nat.lt_or_ge (j + 1) i with hj2 | hj2
  · exact hp j hj2
  · have hji : j = i - 1 := by omega
    rw [hji]
    rw [hrm] at hcr
    exact not_le.mp hcr

theorem noCrashBelow_break (cfg : Config) (i : ℕ) (σ σ' : SimState)
    (_hi : 1 ≤ i) (hp : noCrashBelow cfg i σ)
    (hs : step cfg i σ = (σ', false)) : noCrashBelow cfg i σ' := by
  rcases step_break_elim cfg i σ σ' hs with hg | ⟨σ₁, hg, hph⟩
  · have hrm : σ'.rmag = σ.rmag := by
      have h := sameCore_rmag σ (guidanceStep cfg i σ).1 (guid_sameCore cfg i σ)
      rw [hg] at h
      exact h
    intro j hj
    rw [hrm]
    exact hp j hj
  · have hrm : σ₁.rmag = σ.rmag := by
      have h := sameCore_rmag σ (guidanceStep cfg i σ).1 (guid_sameCore cfg i σ)
      rw [hg] at h
      exact h
    rcases phys_break_elim cfg i σ₁ σ' hph with ⟨_, hcrash⟩ | ⟨_, hbody, _⟩
    · intro j hj
      rw [hcrash]
      show σ₁.rmag.getD j 0 > _
      rw [hrm]
      exact hp j hj
    · intro j hj
      rw [hbody, physBody_rmag, getD_gset_lt _ _ _ _ _ (by omega : j < i), hrm]
      exact hp j hj

/-- C7 counterexample: (i) a phase starting at position magnitude exactly
`R − 10` (altitude exactly −10 m, not strictly below) terminates with
engine code −100, because the source's crash check uses `<=`, not `<`;
(ii) the trimmed trajectory of a crashed phase does contain a sample with
position magnitude below `R − 10` — the very sample that triggered the
crash (and here also the only recorded sample). -/
theorem C7_counterexample :
    ((flight_sim_3d cfgCrashEq).eng = -100 ∧
      ¬((flightRun cfgCrashEq).2.rmag.getD 0 0 < cfgCrashEq.g.R - 10)) ∧
    ((flight_sim_3d cfgCrashLow).eng = -100 ∧
      (flight_sim_3d cfgCrashLow).plots.rmag.getD 0 0 <
        cfgCrashLow.g.R - 10 ∧
      (flight_sim_3d cfgCrashLow).plots.rmag.length = 1) := by
  refine ⟨⟨by decide, by decide⟩, by decide, by decide, by decide⟩

/-- C7 amended: a breaking step exits with engine code −100 exactly when it
passed the guidance section and the previous step's position magnitude was
≤ `R − 10` (altitude ≤ −10 m; the source uses `<=`, so altitude exactly
−10 m also crashes); whenever guidance continues and that condition holds,
the step does break with code −100 and performs no history writes; and
every recorded trajectory sample except possibly the final one has position
magnitude strictly above `R − 10` (the crash-triggering sample itself
remains in the trimmed output). -/
theorem C7_amended_crash_detection (cfg : Config) :
    (∀ i σ σ', σ.eng ≠ -100 → step cfg i σ = (σ', false) →
      (σ'.eng = -100 ↔ (guidanceStep cfg i σ).2 = true ∧
        σ.rmag.getD (i - 1) 0 ≤ cfg.g.R - 10)) ∧
    (∀ i σ σ₁, guidanceStep cfg i σ = (σ₁, true) →
      σ.rmag.getD (i - 1) 0 ≤ cfg.g.R - 10 →
      step cfg i σ = ({ σ₁ with eng := -100 }, false)) ∧
    (∀ j, j + 1 < (flightRun cfg).1 →
      (flight_sim_3d cfg).plots.rmag.getD j 0 > cfg.g.R - 10) := by
  refine ⟨?_, ?_, ?_⟩
  · intro i σ σ' he hs
    rcases step_break_elim cfg i σ σ' hs with hg | ⟨σ₁, hg, hph⟩
    · constructor
      · intro h100
        exfalso
        rcases guid_break_eng cfg i σ σ' hg with ⟨h0, _, _⟩ | h2 | h3
        · rw [h0] at h100; exact absurd h100 (by decide)
        · rw [h2] at h100; exact absurd h100 (by decide)
        · rw [h3] at h100; exact absurd h100 (by decide)
      · intro ⟨hgt, _⟩
        rw [hg] at hgt
        simp at hgt
    · have hrm : σ₁.rmag = σ.rmag := by
        have h := sameCore_rmag σ (guidanceStep cfg i σ).1
          (guid_sameCore cfg i σ)
        rw [hg] at h
        exact h
      rcases phys_break_elim cfg i σ₁ σ' hph with ⟨hcr, hcrash⟩ |
        ⟨hcr, hbody, _⟩
      · constructor
        · intro _
          rw [hrm] at hcr
          exact ⟨by rw [hg], hcr⟩
        · intro _
          rw [hcrash]
      · constructor
        · intro h100
          exfalso
          rw [hbody, physBody_eng, guid_cont_eng cfg i σ σ₁ hg] at h100
          exact he h100
        · intro ⟨_, hcond⟩
          exfalso
          rw [hrm] at hcr
          exact hcr hcond
  · intro i σ σ₁ hg hcond
    have hrm : σ₁.rmag = σ.rmag := by
      have h := sameCore_rmag σ (guidanceStep cfg i σ).1 (guid_sameCore cfg i σ)
      rw [hg] at h
      exact h
    unfold step
    rw [hg]
    show physStep cfg i σ₁ = _
    exact physStep_crash cfg i σ₁ (by rw [hrm]; exact hcond)
  · intro j hj
    have hrun := run_spec cfg (noCrashBelow cfg) (noCrashBelow cfg)
      (fun i σ σ' hi hp hs => noCrashBelow_cont cfg i σ σ' hi hp hs)
      (fun i σ σ' hi hp hs => noCrashBelow_break cfg i σ σ' hi hp hs)
      (fun i σ _ hp j hj => hp j (by omega)) 999999 1 (initState cfg)
      (by omega) (by omega) (fun j hj => absurd hj (by omega))
    have hq := hrun j hj
    show ((flightRun cfg).2.rmag.take (flightRun cfg).1).getD j 0 > _
    rw [getD_take _ _ _ _ (by omega : j < (flightRun cfg).1)]
    exact hq

theorem C7_witness :
    ((initState cfgCrashEq).eng ≠ -100 ∧
      (step cfgCrashEq 1 (initState cfgCrashEq)).1.eng = -100 ∧
      (initState cfgCrashEq).rmag.getD 0 0 ≤ cfgCrashEq.g.R - 10) ∧
    (0 + 1 < (flightRun cfgGT).1 ∧
      (flight_sim_3d cfgGT).plots.rmag.getD 0 0 > cfgGT.g.R - 10) := by
  have hb : (step cfgCrashEq 1 (initState cfgCrashEq)).2 = false := by decide
  have hs : step cfgCrashEq 1 (initState cfgCrashEq) =
      ((step cfgCrashEq 1 (initState cfgCrashEq)).1, false) := by
    rw [← hb]
  refine ⟨⟨by decide, ?_, by decide⟩, by decide,
    (C7_amended_crash_detection cfgGT).2.2 0 (by decide)⟩
  exact ((C7_amended_crash_detection cfgCrashEq).1 1 (initState cfgCrashEq)
    _ (by decide) hs).mpr ⟨by decide, by decide⟩

/-!
### Claim C8 — UPFG scheduled cutoff
-/

theorem sameCore_fields (σ σ₁ : SimState) (h : sameCore σ σ₁) :
    σ₁.t = σ.t ∧ σ₁.r = σ.r ∧ σ₁.v = σ.v ∧ σ₁.m = σ.m ∧ σ₁.dt = σ.dt := by
  obtain ⟨h1, h2, h3, h4, h5, h6, h7, h8, h9, h10, h11, h12, h13, h14, h15,
    h16, h17, h18, h19, h20, h21⟩ := h
  exact ⟨h1, h5, h7, h19, h20⟩

/-- C8: in a UPFG-controlled phase, at any step where — after the cadence
update (timer increment or guidance call) — the guidance time-to-go minus
the last-call timer is below Δt while the engine is running (code 1) and
the fuel check did not fire, the engine code is set to 2 and the step
breaks out of the loop with the position, velocity, time and mass histories
untouched: the physics update of that step is never applied. -/
theorem C8_upfg_scheduled_cutoff (o : Ops) (g : Globals) (veh : List Stage)
    (stg0 : ℕ) (ini : Initial) (jetl : List (ℚ × ℚ)) (d0 : ℚ)
    (probe : Option (ℕ → Vec3 × Vec3 × ℚ × ℚ)) (tgt : Target) (ct : ℚ)
    (i : ℕ) (σ : SimState) :
    let cfg : Config := ⟨o, g, veh, stg0, ini, .upfg tgt ct, jetl, d0, probe⟩
    let σ₁ := upfgCycle cfg tgt ct i σ
    σ.eng = 1 →
    ¬(σ.t.getD (i - 1) 0 - σ.t.getD 0 0 > maxTof cfg) →
    σ₁.guidance.tgo - σ₁.lc < σ₁.dt →
    step cfg i σ = ({ σ₁ with eng := 2 }, false) ∧ σ₁.t = σ.t ∧
    σ₁.r = σ.r ∧ σ₁.v = σ.v ∧ σ₁.m = σ.m := by
  intro cfg σ₁ he hf hc
  have hfields := sameCore_fields σ σ₁ (upfgCycle_sameCore cfg tgt ct i σ)
  have heng1 : σ₁.eng = 1 := (upfgCycle_eng cfg tgt ct i σ).trans he
  refine ⟨?_, hfields.1, hfields.2.1, hfields.2.2.1, hfields.2.2.2.1⟩
  have hgu : guidanceStep cfg i σ = ({ σ₁ with eng := 2 }, false) := by
    show upfgGuid cfg tgt ct i σ = _
    unfold upfgGuid
    rw [if_neg (fun hcontra => hf hcontra.1), if_pos ⟨hc, heng1⟩]
  unfold step
  rw [hgu]

theorem C8_witness :
    (initState cfgU).eng = 1 ∧
    ¬((initState cfgU).t.getD 0 0 - (initState cfgU).t.getD 0 0 >
      maxTof cfgU) ∧
    (upfgCycle cfgU ⟨1000, 500, ⟨0, 0, 1⟩⟩ 5 1 (initState cfgU)).guidance.tgo -
      (upfgCycle cfgU ⟨1000, 500, ⟨0, 0, 1⟩⟩ 5 1 (initState cfgU)).lc <
      (upfgCycle cfgU ⟨1000, 500, ⟨0, 0, 1⟩⟩ 5 1 (initState cfgU)).dt ∧
    (step cfgU 1 (initState cfgU)).1.eng = 2 ∧
    (step cfgU 1 (initState cfgU)).2 = false := by
  have h := C8_upfg_scheduled_cutoff (opsEx ⟨5, 6, 1/2⟩) gEx [stEx 10] 0
    (.inFlight 0 ⟨200, 0, 0⟩ ⟨1, 2, 3⟩ none) [] 1 none ⟨1000, 500, ⟨0, 0, 1⟩⟩
    5 1 (initState cfgU) (by decide) (by decide) (by decide)
  have h1 : step cfgU 1 (initState cfgU) =
      ({ upfgCycle cfgU ⟨1000, 500, ⟨0, 0, 1⟩⟩ 5 1 (initState cfgU) with
          eng := 2 }, false) := h.1
  exact ⟨by decide, by decide, by decide, by rw [h1], by rw [h1]⟩

/-!
### Claim C9 — coast steps
-/

/-- C9 counterexample: in a coast phase with no state probe, a step during
which a jettison event fires does change the vehicle mass, refuting "the
vehicle mass is unchanged from the previous step". -/
theorem C9_counterexample :
    cfgJet.control.isCoast = true ∧
    (step cfgJet 1 (initState cfgJet)).1.m ≠ (initState cfgJet).m := by
  exact ⟨rfl, by decide⟩

/-- C9 amended: at every step of a coast phase (no state probe) that passes
the crash check, the recorded thrust `F[i]` is 0, the engine code is
unchanged (it stays at the −1 set by the coast setup until the phase
terminates), and the vehicle mass is unchanged except for jettison events:
the new mass is exactly the jettison sweep applied to the old mass (the
burned mass flow is 0), so when no jettison entry fires the mass is
unchanged from the previous step. -/
theorem C9_amended_coast_step (o : Ops) (g : Globals) (veh : List Stage)
    (stg0 : ℕ) (ini : Initial) (jetl : List (ℚ × ℚ)) (d0 len : ℚ) (i : ℕ)
    (σ : SimState) :
    let cfg : Config := ⟨o, g, veh, stg0, ini, .coast len, jetl, d0, none⟩
    1 ≤ i →
    ¬(σ.rmag.getD (i - 1) 0 ≤ g.R - 10) →
    (step cfg i σ).1.F.getD i 0 = 0 ∧
    (step cfg i σ).1.eng = σ.eng ∧
    (step cfg i σ).1.m = (jetPass (σ.t.getD 0 0)
      (σ.t.getD (i - 1) 0 + σ.dt) σ.m σ.jet).1 ∧
    ((∀ e ∈ σ.jet, (jetEntryStep (σ.t.getD 0 0)
        (σ.t.getD (i - 1) 0 + σ.dt) e).2 = false) →
      (step cfg i σ).1.m = σ.m) := by
  intro cfg hi hcr
  have hstep : (step cfg i σ).1 = physBody cfg i σ := by
    unfold step
    have hgs : guidanceStep cfg i σ = (σ, true) := rfl
    rw [hgs]
    exact physStep_nocrash_fst cfg i σ hcr
  have hti : (rvmtNew cfg i σ).2.2.2 = σ.t.getD (i - 1) 0 + σ.dt := rfl
  have hmass : (step cfg i σ).1.m = (jetPass (σ.t.getD 0 0)
      (σ.t.getD (i - 1) 0 + σ.dt) σ.m σ.jet).1 := by
    rw [hstep]
    show (jetPass ((gset σ.t 0 i (rvmtNew cfg i σ).2.2.2).getD 0 0)
      (rvmtNew cfg i σ).2.2.2 (rvmtNew cfg i σ).2.2.1 σ.jet).1 = _
    have hmi : (rvmtNew cfg i σ).2.2.1 = σ.m - 0 * σ.dt := rfl
    rw [getD_gset_lt σ.t 0 i 0 _ (by omega), hti, hmi, zero_mul, sub_zero]
  refine ⟨?_, ?_, hmass, ?_⟩
  · rw [hstep]
    show (gset σ.F 0 i (thrustCalc cfg i σ).1).getD i 0 = 0
    rw [getD_gset_self]
    rfl
  · rw [hstep, physBody_eng]
  · intro hnone
    rw [hmass]
    exact jetPass_nofire _ _ σ.jet σ.m hnone

/-!
### Claim C1 — history lengths in the finalized plots
-/

theorem upfgCycle_pitch_yaw (cfg : Config) (tgt : Target) (ct : ℚ) (i : ℕ)
    (σ : SimState) :
    (upfgCycle cfg tgt ct i σ).pitch = σ.pitch ∧
    (upfgCycle cfg tgt ct i σ).yaw = σ.yaw := by
  unfold upfgCycle
  split <;> exact ⟨rfl, rfl⟩

theorem guid_break_pitch_yaw (cfg : Config) (i : ℕ) (σ σ₁ : SimState)
    (h : guidanceStep cfg i σ = (σ₁, false)) :
    σ₁.pitch = σ.pitch ∧ σ₁.yaw = σ.yaw := by
  cases hc : cfg.control with
  | gravityTurn gtiP gtiV azim => simp [guidanceStep, hc] at h
  | pitchProgram prog azim => simp [guidanceStep, hc] at h
  | upfg tgt ct =>
      have hcyc := upfgCycle_pitch_yaw cfg tgt ct i σ
      simp only [guidanceStep, hc, upfgGuid] at h
      split at h
      · injection h with h1 h2
        subst h1
        exact ⟨rfl, rfl⟩
      · split at h
        · injection h with h1 h2
          subst h1
          exact hcyc
        · split at h
          · injection h with h1 h2
            subst h1
            exact hcyc
          · simp at h
  | coast len => simp [guidanceStep, hc] at h

theorem guid_cont_pitch_yaw (cfg : Config) (i : ℕ) (σ σ₁ : SimState)
    (h : guidanceStep cfg i σ = (σ₁, true)) :
    (cfg.control.isCoast = true → σ₁.pitch = σ.pitch ∧ σ₁.yaw = σ.yaw) ∧
    (cfg.control.isCoast = false →
      σ₁.pitch.length = max σ.pitch.length (i + 1) ∧
      σ₁.yaw.length = max σ.yaw.length (i + 1)) := by
  cases hc : cfg.control with
  | gravityTurn gtiP gtiV azim =>
      simp only [guidanceStep, hc] at h
      injection h with h1 h2
      subst h1
      exact ⟨fun hcst => by simp [hc, Control.isCoast] at hcst,
        fun _ => ⟨gset_length _ _ _ _, gset_length _ _ _ _⟩⟩
  | pitchProgram prog azim =>
      simp only [guidanceStep, hc] at h
      injection h with h1 h2
      subst h1
      exact ⟨fun hcst => by simp [hc, Control.isCoast] at hcst,
        fun _ => ⟨gset_length _ _ _ _, gset_length _ _ _ _⟩⟩
  | upfg tgt ct =>
      have hcyc := upfgCycle_pitch_yaw cfg tgt ct i σ
      simp only [guidanceStep, hc, upfgGuid] at h
      split at h
      · simp at h
      · split at h
        · simp at h
        · split at h
          · simp at h
          · injection h with h1 h2
            subst h1
            refine ⟨fun hcst => by simp [hc, Control.isCoast] at hcst,
              fun _ => ⟨?_, ?_⟩⟩
            · show (gset (upfgCycle cfg tgt ct i σ).pitch 0 i _).length = _
              rw [gset_length, hcyc.1]
            · show (gset (upfgCycle cfg tgt ct i σ).yaw 0 i _).length = _
              rw [gset_length, hcyc.2]
  | coast len =>
      simp only [guidanceStep, hc] at h
      injection h with h1 h2
      subst h1
      exact ⟨fun _ => ⟨rfl, rfl⟩,
        fun hcst => by simp [hc, Control.isCoast] at hcst⟩

theorem physBody_lens (cfg : Config) (i : ℕ) (σ : SimState) :
    (physBody cfg i σ).t.length = max σ.t.length (i + 1) ∧
    (physBody cfg i σ).F.length = max σ.F.length (i + 1) ∧
    (physBody cfg i σ).acc.length = max σ.acc.length (i + 1) ∧
    (physBody cfg i σ).q.length = max σ.q.length (i + 1) ∧
    (physBody cfg i σ).r.length = max σ.r.length (i + 1) ∧
    (physBody cfg i σ).rmag.length = max σ.rmag.length (i + 1) ∧
    (physBody cfg i σ).v.length = max σ.v.length (i + 1) ∧
    (physBody cfg i σ).vmag.length = max σ.vmag.length (i + 1) ∧
    (physBody cfg i σ).vy.length = max σ.vy.length (i + 1) ∧
    (physBody cfg i σ).vt.length = max σ.vt.length (i + 1) ∧
    (physBody cfg i σ).vair.length = max σ.vair.length (i + 1) ∧
    (physBody cfg i σ).vairmag.length = max σ.vairmag.length (i + 1) ∧
    (physBody cfg i σ).angPS.length = max σ.angPS.length (i + 1) ∧
    (physBody cfg i σ).angYS.length = max σ.angYS.length (i + 1) ∧
    (physBody cfg i σ).angPO.length = max σ.angPO.length (i + 1) ∧
    (physBody cfg i σ).angYO.length = max σ.angYO.length (i + 1) :=
  ⟨gset_length _ _ _ _, gset_length _ _ _ _, gset_length _ _ _ _,
   gset_length _ _ _ _, gset_length _ _ _ _, gset_length _ _ _ _,
   gset_length _ _ _ _, gset_length _ _ _ _, gset_length _ _ _ _,
   gset_length _ _ _ _, gset_length _ _ _ _, gset_length _ _ _ _,
   gset_length _ _ _ _, gset_length _ _ _ _, gset_length _ _ _ _,
   gset_length _ _ _ _⟩

theorem lensInv_le (cst : Bool) (i : ℕ) (σ : SimState) (hi : 1 ≤ i)
    (hp : lensInv cst i σ) :
    (σ.t.length ≤ i ∧ σ.F.length ≤ i ∧ σ.acc.length ≤ i ∧
     σ.q.length ≤ i ∧ σ.r.length ≤ i ∧ σ.rmag.length ≤ i ∧
     σ.v.length ≤ i ∧ σ.vmag.length ≤ i ∧ σ.vy.length ≤ i ∧
     σ.vt.length ≤ i ∧ σ.vair.length ≤ i ∧ σ.vairmag.length ≤ i ∧
     σ.angPS.length ≤ i ∧ σ.angYS.length ≤ i ∧ σ.angPO.length ≤ i ∧
     σ.angYO.length ≤ i) ∧
    (cst = true → σ.pitch = [] ∧ σ.yaw = []) ∧
    (cst = false → σ.pitch.length ≤ i ∧ σ.yaw.length ≤ i) := by
  unfold lensInv at hp
  split at hp
  · next h2 =>
    obtain ⟨⟨e1, e2, e3, e4, e5, e6, e7, e8, e9, e10, e11, e12, e13, e14,
      e15, e16⟩, hpyT, hpyF⟩ := hp
    exact ⟨⟨le_of_eq e1, le_of_eq e2, le_of_eq e3, le_of_eq e4,
      le_of_eq e5, le_of_eq e6, le_of_eq e7, le_of_eq e8, le_of_eq e9,
      le_of_eq e10, le_of_eq e11, le_of_eq e12, le_of_eq e13,
      le_of_eq e14, le_of_eq e15, le_of_eq e16⟩, hpyT,
      fun hf => ⟨le_of_eq (hpyF hf).1, le_of_eq (hpyF hf).2⟩⟩
  · next h2 =>
    obtain ⟨⟨e1, e2, e3, e4, e5, e6, e7, e8, e9, e10, e11, e12, e13, e14,
      e15, e16⟩, hpyT, hpyF⟩ := hp
    exact ⟨⟨e1.trans hi, e2.trans hi, e3.trans hi, e4.trans hi,
      e5.trans hi, e6.trans hi, e7.trans hi, e8.trans hi, e9.trans hi,
      e10.trans hi, e11.trans hi, e12.trans hi, e13.trans hi,
      e14.trans hi, e15.trans hi, e16.trans hi⟩, hpyT,
      fun hf => ⟨(hpyF hf).1.trans hi, (hpyF hf).2.trans hi⟩⟩

theorem lensInv_init (cfg : Config) :
    lensInv cfg.control.isCoast 1 (initState cfg) := by
  cases hc : cfg.control <;> cases hi : cfg.initial <;>
    simp [initState, hc, hi, lensInv, lens16Init, Control.isCoast,
      gset_length]

theorem lensInv_phys (cfg : Config) (i : ℕ) (σ σ₁ : SimState) (hi : 1 ≤ i)
    (hp : lensInv cfg.control.isCoast i σ)
    (hg : guidanceStep cfg i σ = (σ₁, true)) :
    lensInv cfg.control.isCoast (i + 1) (physBody cfg i σ₁) := by
  have hsc := guid_sameCore cfg i σ
  rw [hg] at hsc
  obtain ⟨s1, s2, s3, s4, s5, s6, s7, s8, s9, s10, s11, s12, s13, s14, s15,
    s16, _⟩ := hsc
  have hpy := guid_cont_pitch_yaw cfg i σ σ₁ hg
  obtain ⟨p1, p2, p3, p4, p5, p6, p7, p8, p9, p10, p11, p12, p13, p14, p15,
    p16⟩ := physBody_lens cfg i σ₁
  obtain ⟨⟨b1, b2, b3, b4, b5, b6, b7, b8, b9, b10, b11, b12, b13, b14, b15,
    b16⟩, hpT, hpF⟩ := lensInv_le cfg.control.isCoast i σ hi hp
  unfold lensInv
  rw [if_pos (by omega : 2 ≤ i + 1)]
  refine ⟨⟨?_, ?_, ?_, ?_, ?_, ?_, ?_, ?_, ?_, ?_, ?_, ?_, ?_, ?_, ?_, ?_⟩,
    ?_, ?_⟩
  · rw [p1, s1]; omega
  · rw [p2, s2]; omega
  · rw [p3, s3]; omega
  · rw [p4, s4]; omega
  · rw [p5, s5]; omega
  · rw [p6, s6]; omega
  · rw [p7, s7]; omega
  · rw [p8, s8]; omega
  · rw [p9, s9]; omega
  · rw [p10, s10]; omega
  · rw [p11, s11]; omega
  · rw [p12, s12]; omega
  · rw [p13, s13]; omega
  · rw [p14, s14]; omega
  · rw [p15, s15]; omega
  · rw [p16, s16]; omega
  · intro hcst
    rw [physBody_pitch, physBody_yaw, (hpy.1 hcst).1, (hpy.1 hcst).2]
    exact hpT hcst
  · intro hcst
    rw [physBody_pitch, physBody_yaw, (hpy.2 hcst).1, (hpy.2 hcst).2]
    have := (hpF hcst).1
    have := (hpF hcst).2
    omega

theorem lensInv_cont (cfg : Config) (i : ℕ) (σ σ' : SimState) (hi : 1 ≤ i)
    (hp : lensInv cfg.control.isCoast i σ) (hs : step cfg i σ = (σ', true)) :
    lensInv cfg.control.isCoast (i + 1) σ' := by
  rcases step_cont_elim cfg i σ σ' hs with ⟨σ₁, hg, hph⟩
  rcases phys_cont_elim cfg i σ₁ σ' hph with ⟨_, hbody, _⟩
  rw [hbody]
  exact lensInv_phys cfg i σ σ₁ hi hp hg

theorem lensInv_weaken (cst : Bool) (i : ℕ) (σ' : SimState) (hi : 1 ≤ i)
    (hp : lensInv cst (i + 1) σ') : lensExit cst i σ' := by
  unfold lensInv at hp
  rw [if_pos (by omega : 2 ≤ i + 1)] at hp
  obtain ⟨⟨e1, e2, e3, e4, e5, e6, e7, e8, e9, e10, e11, e12, e13, e14, e15,
    e16⟩, hpT, hpF⟩ := hp
  refine ⟨⟨?_, ?_, ?_, ?_, ?_, ?_, ?_, ?_, ?_, ?_, ?_, ?_, ?_, ?_, ?_, ?_⟩,
    hpT, ?_⟩
  · rw [e1]; omega
  · rw [e2]; omega
  · rw [e3]; omega
  · rw [e4]; omega
  · rw [e5]; omega
  · rw [e6]; omega
  · rw [e7]; omega
  · rw [e8]; omega
  · rw [e9]; omega
  · rw [e10]; omega
  · rw [e11]; omega
  · rw [e12]; omega
  · rw [e13]; omega
  · rw [e14]; omega
  · rw [e15]; omega
  · rw [e16]; omega
  · intro hcst
    rw [(hpF hcst).1, (hpF hcst).2]
    omega

theorem lensExit_of_inv (cst : Bool) (i : ℕ) (σ σ₂ : SimState) (h2 : 2 ≤ i)
    (hp : lensInv cst i σ) (hsc : sameCore σ σ₂)
    (hpy : σ₂.pitch = σ.pitch ∧ σ₂.yaw = σ.yaw) : lensExit cst i σ₂ := by
  have hl : lens16 i σ ∧ (cst = true → σ.pitch = [] ∧ σ.yaw = []) ∧
      (cst = false → σ.pitch.length = i ∧ σ.yaw.length = i) := by
    unfold lensInv at hp
    rwa [if_pos h2] at hp
  obtain ⟨⟨e1, e2, e3, e4, e5, e6, e7, e8, e9, e10, e11, e12, e13, e14, e15,
    e16⟩, hpT, hpF⟩ := hl
  obtain ⟨s1, s2, s3, s4, s5, s6, s7, s8, s9, s10, s11, s12, s13, s14, s15,
    s16, _⟩ := hsc
  refine ⟨⟨?_, ?_, ?_, ?_, ?_, ?_, ?_, ?_, ?_, ?_, ?_, ?_, ?_, ?_, ?_, ?_⟩,
    ?_, ?_⟩
  · rw [s1, e1]
  · rw [s2, e2]
  · rw [s3, e3]
  · rw [s4, e4]
  · rw [s5, e5]
  · rw [s6, e6]
  · rw [s7, e7]
  · rw [s8, e8]
  · rw [s9, e9]
  · rw [s10, e10]
  · rw [s11, e11]
  · rw [s12, e12]
  · rw [s13, e13]
  · rw [s14, e14]
  · rw [s15, e15]
  · rw [s16, e16]
  · intro hcst
    rw [hpy.1, hpy.2]
    exact hpT hcst
  · intro hcst
    rw [hpy.1, hpy.2, (hpF hcst).1, (hpF hcst).2]
    omega

theorem lensExit_crash (cst : Bool) (i : ℕ) (σ σ₁ : SimState) (h2 : 2 ≤ i)
    (hp : lensInv cst i σ) (hsc : sameCore σ σ₁)
    (hpyT : cst = true → σ₁.pitch = σ.pitch ∧ σ₁.yaw = σ.yaw)
    (hpyF : cst = false → σ₁.pitch.length = max σ.pitch.length (i + 1) ∧
      σ₁.yaw.length = max σ.yaw.length (i + 1)) : lensExit cst i σ₁ := by
  have hl : lens16 i σ ∧ (cst = true → σ.pitch = [] ∧ σ.yaw = []) ∧
      (cst = false → σ.pitch.length = i ∧ σ.yaw.length = i) := by
    unfold lensInv at hp
    rwa [if_pos h2] at hp
  obtain ⟨⟨e1, e2, e3, e4, e5, e6, e7, e8, e9, e10, e11, e12, e13, e14, e15,
    e16⟩, hpT, hpF⟩ := hl
  obtain ⟨s1, s2, s3, s4, s5, s6, s7, s8, s9, s10, s11, s12, s13, s14, s15,
    s16, _⟩ := hsc
  refine ⟨⟨?_, ?_, ?_, ?_, ?_, ?_, ?_, ?_, ?_, ?_, ?_, ?_, ?_, ?_, ?_, ?_⟩,
    ?_, ?_⟩
  · rw [s1, e1]
  · rw [s2, e2]
  · rw [s3, e3]
  · rw [s4, e4]
  · rw [s5, e5]
  · rw [s6, e6]
  · rw [s7, e7]
  · rw [s8, e8]
  · rw [s9, e9]
  · rw [s10, e10]
  · rw [s11, e11]
  · rw [s12, e12]
  · rw [s13, e13]
  · rw [s14, e14]
  · rw [s15, e15]
  · rw [s16, e16]
  · intro hcst
    rw [(hpyT hcst).1, (hpyT hcst).2]
    exact hpT hcst
  · intro hcst
    rw [(hpyF hcst).1, (hpyF hcst).2]
    exact ⟨le_trans (Nat.le_succ i) (Nat.le_max_right _ _),
      le_trans (Nat.le_succ i) (Nat.le_max_right _ _)⟩

theorem lensInv_break (cfg : Config) (i : ℕ) (σ σ' : SimState) (hi : 1 ≤ i)
    (hp : lensInv cfg.control.isCoast i σ)
    (hs : step cfg i σ = (σ', false)) :
    2 ≤ i → lensExit cfg.control.isCoast i σ' := by
  intro h2
  rcases step_break_elim cfg i σ σ' hs with hg | ⟨σ₁, hg, hph⟩
  · have hsc := guid_sameCore cfg i σ
    rw [hg] at hsc
    exact lensExit_of_inv cfg.control.isCoast i σ σ' h2 hp hsc
      (guid_break_pitch_yaw cfg i σ σ' hg)
  · have hsc := guid_sameCore cfg i σ
    rw [hg] at hsc
    have hpy := guid_cont_pitch_yaw cfg i σ σ₁ hg
    rcases phys_break_elim cfg i σ₁ σ' hph with ⟨_, hcrash⟩ | ⟨_, hbody, _⟩
    · rw [hcrash]
      exact lensExit_crash cfg.control.isCoast i σ σ₁ h2 hp hsc hpy.1 hpy.2
    · rw [hbody]
      exact lensInv_weaken cfg.control.isCoast i (physBody cfg i σ₁) hi
        (lensInv_phys cfg i σ σ₁ hi hp hg)

theorem lensInv_exhaust (cst : Bool) (i : ℕ) (σ : SimState) (h2 : 2 ≤ i)
    (hp : lensInv cst i σ) : lensExit cst (i - 1) σ := by
  have hl : lens16 i σ ∧ (cst = true → σ.pitch = [] ∧ σ.yaw = []) ∧
      (cst = false → σ.pitch.length = i ∧ σ.yaw.length = i) := by
    unfold lensInv at hp
    rwa [if_pos h2] at hp
  obtain ⟨⟨e1, e2, e3, e4, e5, e6, e7, e8, e9, e10, e11, e12, e13, e14, e15,
    e16⟩, hpT, hpF⟩ := hl
  refine ⟨⟨?_, ?_, ?_, ?_, ?_, ?_, ?_, ?_, ?_, ?_, ?_, ?_, ?_, ?_, ?_, ?_⟩,
    hpT, ?_⟩
  · exact le_of_le_of_eq (Nat.sub_le i 1) e1.symm
  · exact le_of_le_of_eq (Nat.sub_le i 1) e2.symm
  · exact le_of_le_of_eq (Nat.sub_le i 1) e3.symm
  · exact le_of_le_of_eq (Nat.sub_le i 1) e4.symm
  · exact le_of_le_of_eq (Nat.sub_le i 1) e5.symm
  · exact le_of_le_of_eq (Nat.sub_le i 1) e6.symm
  · exact le_of_le_of_eq (Nat.sub_le i 1) e7.symm
  · exact le_of_le_of_eq (Nat.sub_le i 1) e8.symm
  · exact le_of_le_of_eq (Nat.sub_le i 1) e9.symm
  · exact le_of_le_of_eq (Nat.sub_le i 1) e10.symm
  · exact le_of_le_of_eq (Nat.sub_le i 1) e11.symm
  · exact le_of_le_of_eq (Nat.sub_le i 1) e12.symm
  · exact le_of_le_of_eq (Nat.sub_le i 1) e13.symm
  · exact le_of_le_of_eq (Nat.sub_le i 1) e14.symm
  · exact le_of_le_of_eq (Nat.sub_le i 1) e15.symm
  · exact le_of_le_of_eq (Nat.sub_le i 1) e16.symm
  · intro hcst
    exact ⟨le_of_le_of_eq (Nat.sub_le i 1) ((hpF hcst).1).symm,
      le_of_le_of_eq (Nat.sub_le i 1) ((hpF hcst).2).symm⟩

/-- C1 counterexample: a finalized coast-phase result whose `pitch` history
is empty while its `t` history is not — the coast branch of the guidance
dispatch never writes `pitch[i]`/`yaw[i]`, so those two `GrowingList`s stay
empty and the uniform `[0:i]` trim cannot equalise them. -/
theorem C1_counterexample :
    (flight_sim_3d cfgCoast).plots.pitch.length ≠
      (flight_sim_3d cfgCoast).plots.t.length := by
  decide

/-- C1 amended: for every finalized result whose main loop ran at least one
full iteration (exit index ≥ 2), all sixteen per-step history arrays that
every control type writes (t, r, rmag, v, vy, vt, vmag, F, acc, q, vair,
vairmag and the four flight-path-angle arrays) have equal length, equal to
the index at which the loop terminated; for the guided control types
(gravity turn, pitch program, UPFG) the pitch and yaw command histories
share that same length, but in a coast phase they are empty. -/
theorem C1_amended_history_lengths (cfg : Config)
    (h2 : 2 ≤ (flightRun cfg).1) :
    ((flight_sim_3d cfg).plots.t.length = (flightRun cfg).1 ∧
     (flight_sim_3d cfg).plots.r.length = (flightRun cfg).1 ∧
     (flight_sim_3d cfg).plots.rmag.length = (flightRun cfg).1 ∧
     (flight_sim_3d cfg).plots.v.length = (flightRun cfg).1 ∧
     (flight_sim_3d cfg).plots.vy.length = (flightRun cfg).1 ∧
     (flight_sim_3d cfg).plots.vt.length = (flightRun cfg).1 ∧
     (flight_sim_3d cfg).plots.vmag.length = (flightRun cfg).1 ∧
     (flight_sim_3d cfg).plots.F.length = (flightRun cfg).1 ∧
     (flight_sim_3d cfg).plots.a.length = (flightRun cfg).1 ∧
     (flight_sim_3d cfg).plots.q.length = (flightRun cfg).1 ∧
     (flight_sim_3d cfg).plots.vair.length = (flightRun cfg).1 ∧
     (flight_sim_3d cfg).plots.vairmag.length = (flightRun cfg).1 ∧
     (flight_sim_3d cfg).plots.angle_ps.length = (flightRun cfg).1 ∧
     (flight_sim_3d cfg).plots.angle_ys.length = (flightRun cfg).1 ∧
     (flight_sim_3d cfg).plots.angle_po.length = (flightRun cfg).1 ∧
     (flight_sim_3d cfg).plots.angle_yo.length = (flightRun cfg).1) ∧
    (cfg.control.isCoast = false →
      (flight_sim_3d cfg).plots.pitch.length = (flightRun cfg).1 ∧
      (flight_sim_3d cfg).plots.yaw.length = (flightRun cfg).1) ∧
    (cfg.control.isCoast = true →
      (flight_sim_3d cfg).plots.pitch = [] ∧
      (flight_sim_3d cfg).plots.yaw = []) := by
  have hrun := run_spec cfg (lensInv cfg.control.isCoast)
    (fun i σ' => 2 ≤ i → lensExit cfg.control.isCoast i σ')
    (fun i σ σ' hi hp hs => lensInv_cont cfg i σ σ' hi hp hs)
    (fun i σ σ' hi hp hs => lensInv_break cfg i σ σ' hi hp hs)
    (fun i σ h2i hp _ => lensInv_exhaust cfg.control.isCoast i σ h2i hp)
    999999 1 (initState cfg) (by omega) (by omega) (lensInv_init cfg)
  have hexit : lensExit cfg.control.isCoast (flightRun cfg).1
      (flightRun cfg).2 := hrun h2
  obtain ⟨⟨x1, x2, x3, x4, x5, x6, x7, x8, x9, x10, x11, x12, x13, x14, x15,
    x16⟩, hT, hF⟩ := hexit
  refine ⟨⟨?_, ?_, ?_, ?_, ?_, ?_, ?_, ?_, ?_, ?_, ?_, ?_, ?_, ?_, ?_, ?_⟩,
    ?_, ?_⟩
  · show ((flightRun cfg).2.t.take (flightRun cfg).1).length = _
    rw [List.length_take, Nat.min_eq_left x1]
  · show ((flightRun cfg).2.r.take (flightRun cfg).1).length = _
    rw [List.length_take, Nat.min_eq_left x5]
  · show ((flightRun cfg).2.rmag.take (flightRun cfg).1).length = _
    rw [List.length_take, Nat.min_eq_left x6]
  · show ((flightRun cfg).2.v.take (flightRun cfg).1).length = _
    rw [List.length_take, Nat.min_eq_left x7]
  · show ((flightRun cfg).2.vy.take (flightRun cfg).1).length = _
    rw [List.length_take, Nat.min_eq_left x9]
  · show ((flightRun cfg).2.vt.take (flightRun cfg).1).length = _
    rw [List.length_take, Nat.min_eq_left x10]
  · show ((flightRun cfg).2.vmag.take (flightRun cfg).1).length = _
    rw [List.length_take, Nat.min_eq_left x8]
  · show ((flightRun cfg).2.F.take (flightRun cfg).1).length = _
    rw [List.length_take, Nat.min_eq_left x2]
  · show ((flightRun cfg).2.acc.take (flightRun cfg).1).length = _
    rw [List.length_take, Nat.min_eq_left x3]
  · show ((flightRun cfg).2.q.take (flightRun cfg).1).length = _
    rw [List.length_take, Nat.min_eq_left x4]
  · show ((flightRun cfg).2.vair.take (flightRun cfg).1).length = _
    rw [List.length_take, Nat.min_eq_left x11]
  · show ((flightRun cfg).2.vairmag.take (flightRun cfg).1).length = _
    rw [List.length_take, Nat.min_eq_left x12]
  · show ((flightRun cfg).2.angPS.take (flightRun cfg).1).length = _
    rw [List.length_take, Nat.min_eq_left x13]
  · show ((flightRun cfg).2.angYS.take (flightRun cfg).1).length = _
    rw [List.length_take, Nat.min_eq_left x14]
  · show ((flightRun cfg).2.angPO.take (flightRun cfg).1).length = _
    rw [List.length_take, Nat.min_eq_left x15]
  · show ((flightRun cfg).2.angYO.take (flightRun cfg).1).length = _
    rw [List.length_take, Nat.min_eq_left x16]
  · intro hcst
    have hb := hF hcst
    constructor
    · show ((flightRun cfg).2.pitch.take (flightRun cfg).1).length = _
      rw [List.length_take, Nat.min_eq_left hb.1]
    · show ((flightRun cfg).2.yaw.take (flightRun cfg).1).length = _
      rw [List.length_take, Nat.min_eq_left hb.2]
  · intro hcst
    have hb := hT hcst
    constructor
    · show (flightRun cfg).2.pitch.take (flightRun cfg).1 = []
      rw [hb.1, List.take_nil]
    · show (flightRun cfg).2.yaw.take (flightRun cfg).1 = []
      rw [hb.2, List.take_nil]

/-- C1 witness: the gravity-turn configuration runs a full iteration and
exits at index 2, so its trimmed `t` and `pitch` histories both have
length 2. -/
theorem C1_witness :
    2 ≤ (flightRun cfgGT).1 ∧
    (flight_sim_3d cfgGT).plots.t.length = (flightRun cfgGT).1 ∧
    (flight_sim_3d cfgGT).plots.pitch.length = (flightRun cfgGT).1 := by
  refine ⟨by decide, ?_, ?_⟩
  · exact (C1_amended_history_lengths cfgGT (by decide)).1.1
  · exact ((C1_amended_history_lengths cfgGT (by decide)).2.1 (by decide)).1

theorem C9_witness :
    (1 ≤ 1 ∧
      ¬((initState cfgJet).rmag.getD 0 0 ≤ cfgJet.g.R - 10)) ∧
    (step cfgJet 1 (initState cfgJet)).1.F.getD 1 0 = 0 ∧
    (step cfgJet 1 (initState cfgJet)).1.eng = (initState cfgJet).eng := by
  have h := C9_amended_coast_step (opsEx ⟨0, 0, 0⟩) gEx [stEx 5] 0
    (.inFlight 0 ⟨200, 0, 0⟩ ⟨0, 0, 0⟩ none) [(1/2, 100)] 1 5 1
    (initState cfgJet) (by omega) (by decide)
  exact ⟨⟨by omega, by decide⟩, h.1, h.2.1⟩

end EvalProofs

end PEGAS
